import Mathlib

/-!
Verification of the logiflet circuit simulator core.

This file is a shallow embedding, in Lean 4, of the parts of the repository
that the checked claims are about:

* `src/utils/boolean_algebra.py` — truth tables, PDNF, PCNF, Zhegalkin
  polynomials (`TruthTable`, `generate_truth_table`, `calculate_pdnf`,
  `calculate_pcnf`, `calculate_zhegalkin`, `BooleanExpression._normalize`);
* `src/circuit_model.py` — `Signal`, `Pin`, `Wire.propagate`, `Circuit`
  mutation operations;
* `src/simulation_engine.py` — `SimulationEngine.reset/step/_evaluate_circuit`;
* `src/components/...` — the component `evaluate()` implementations that the
  claims mention (Switch, Button, LED, Clock, NOT, AND, OR, D flip-flop);
* `src/utils/circuit_from_form.py` — the PDNF synthesizer.

Python dictionaries preserve insertion order, so ordered association lists
model them; a Python object reference to a `Pin` is modelled by a
(component id, pin name) handle, which is faithful because every pin object
in the source belongs to exactly one component and is looked up through it.
-/

/-! ## Boolean algebra (`src/utils/boolean_algebra.py`) -/

/-- Truth table, from `TruthTable` in `boolean_algebra.py`.  A row pairs an
assignment with the output; the assignment list is aligned with `vars` (the source attribute is named variables)
(the source keeps a dict built by `dict(zip(variables, combination))`, so the
aligned list carries the same information). -/
structure TruthTable where
  vars : List String
  rows : List (List Bool × Bool)
deriving DecidableEq, Repr

/-- Enumeration order of `itertools.product([False, True], repeat=n)` used by
`generate_truth_table`: the first coordinate varies slowest. -/
def genRows : Nat → List (List Bool)
  | 0 => [[]]
  | n + 1 => (genRows n).map (fun t => false :: t) ++ (genRows n).map (fun t => true :: t)

/-- Embedding of `generate_truth_table`.  The Python expression object is
abstracted by its denotation `f` on assignments (the claims quantify over
every boolean expression, i.e. over every such denotation). -/
def generateTruthTable (vars : List String) (f : List Bool → Bool) : TruthTable :=
  ⟨vars, (genRows vars.length).map (fun a => (a, f a))⟩

/-- Literal strings built by the loop in `calculate_pdnf`: un-negated variable
when the row assigns it true, `!`-prefixed otherwise. -/
def mintermLiterals (vars : List String) (a : List Bool) : List String :=
  (vars.zip a).map (fun p => if p.2 then p.1 else "!" ++ p.1)

/-- Literal strings built by the loop in `calculate_pcnf`: negated variable
when the row assigns it true, plain otherwise. -/
def maxtermLiterals (vars : List String) (a : List Bool) : List String :=
  (vars.zip a).map (fun p => if p.2 then "!" ++ p.1 else p.1)

/-- Embedding of `calculate_pdnf` (string output, byte for byte). -/
def calculatePdnf (tt : TruthTable) : String :=
  let minterms := tt.rows.filter (fun r => r.2)
  if minterms.isEmpty then "0"
  else
    String.intercalate " | "
      (minterms.map (fun r => "(" ++ String.intercalate "&" (mintermLiterals tt.vars r.1) ++ ")"))

/-- Embedding of `calculate_pcnf` (string output, byte for byte). -/
def calculatePcnf (tt : TruthTable) : String :=
  let maxterms := tt.rows.filter (fun r => !r.2)
  if maxterms.isEmpty then "1"
  else
    String.intercalate " & "
      (maxterms.map (fun r => "(" ++ String.intercalate "|" (maxtermLiterals tt.vars r.1) ++ ")"))

/-- One step of the triangle in `calculate_zhegalkin`: adjacent sums mod 2. -/
def triNext (row : List Nat) : List Nat :=
  (row.zip row.tail).map (fun p => (p.1 + p.2) % 2)

/-- The triangle built by `calculate_zhegalkin`: it starts from the output
column and, crucially, the source loop runs only `n = len(variables)` times,
producing `n + 1` rows (not the `2^n` rows of the full reduction). -/
def triangleRows (outputs : List Nat) (n : Nat) : List (List Nat) :=
  (List.range n).foldl (fun acc _ => acc ++ [triNext (acc.getLastD [])]) [outputs]

/-- Embedding of `calculate_zhegalkin`.  `row.headD 0` models `triangle[i][0]`
(the rows are nonempty whenever the source call succeeds).  The monomial for
coefficient index `i` takes `variables[j]` whenever bit `j` of `i` is set,
exactly as the source loop does. -/
def calculateZhegalkin (tt : TruthTable) : String :=
  let outputs := tt.rows.map (fun r => if r.2 then 1 else 0)
  let n := tt.vars.length
  let tri := triangleRows outputs n
  let coefficients := tri.map (fun row => row.headD 0)
  let terms := coefficients.enum.filterMap (fun p =>
    if p.2 == 1 then
      if p.1 == 0 then some "1"
      else
        let varIdx := (List.range n).filter (fun j => (p.1 >>> j) % 2 == 1)
        if varIdx.isEmpty then none
        else some (String.intercalate "&" (varIdx.map (fun j => tt.vars.getD j "")))
    else none)
  if terms.isEmpty then "0" else String.intercalate " ⊕ " terms

/-- The denotation of the expression `A&B` over the sorted variable list
`[A, B]`: conjunction of the two assignment entries. -/
def andFn (a : List Bool) : Bool := a.getD 0 false && a.getD 1 false

/-- Truth table the source generates for the expression `A&B`. -/
def ttAB : TruthTable := generateTruthTable ["A", "B"] andFn

/-! ## Semantic reading of the generated normal-form strings

The generated PDNF/PCNF strings fall into a fixed grammar: parenthesized
conjunctions (resp. disjunctions) of possibly `!`-negated variables joined by
`|` (resp. `&`), or the constants `0`/`1`.  Re-evaluating such a string with
`BooleanExpression.evaluate` substitutes each variable by name and computes
the disjunction of the conjunctions of the literal values (Python operator
precedence: `not` over `and` over `or`, with the parentheses of the generated
string); `eval("0")` is falsy and `eval("1")` is truthy.  The following
definitions capture that reading on the literal structure of the strings. -/

/-- Value of a literal `(name, polarity)` under a named environment, the
by-name substitution `BooleanExpression.evaluate` performs. -/
def evalLit (env : List (String × Bool)) (lit : String × Bool) : Bool :=
  match List.lookup lit.1 env with
  | some v => v == lit.2
  | none => false

/-- Literal structure of the terms of `calculate_pdnf tt`: one term per true
row, literal polarity equal to the row value. -/
def pdnfTermsOf (tt : TruthTable) : List (List (String × Bool)) :=
  (tt.rows.filter (fun r => r.2)).map (fun r => tt.vars.zip r.1)

/-- Literal structure of the clauses of `calculate_pcnf tt`: one clause per
false row, literal polarity opposite to the row value. -/
def pcnfClausesOf (tt : TruthTable) : List (List (String × Bool)) :=
  (tt.rows.filter (fun r => !r.2)).map (fun r => (tt.vars.zip r.1).map (fun p => (p.1, !p.2)))

/-- Evaluation of a DNF string: disjunction of conjunctions; the empty term
list is the constant string `0`, which evaluates false. -/
def evalDnf (terms : List (List (String × Bool))) (env : List (String × Bool)) : Bool :=
  terms.any (fun t => t.all (evalLit env))

/-- Evaluation of a CNF string: conjunction of disjunctions; the empty clause
list is the constant string `1`, which evaluates true. -/
def evalCnf (clauses : List (List (String × Bool))) (env : List (String × Bool)) : Bool :=
  clauses.all (fun c => c.any (evalLit env))

/-- Rendering of a literal as `calculate_pdnf`/`calculate_pcnf` print it. -/
def renderLit (p : String × Bool) : String := if p.2 then p.1 else "!" ++ p.1

/-- Rendering a DNF term structure the way `calculate_pdnf` prints it. -/
def renderDnf (terms : List (List (String × Bool))) : String :=
  if terms.isEmpty then "0"
  else String.intercalate " | "
    (terms.map (fun t => "(" ++ String.intercalate "&" (t.map renderLit) ++ ")"))

/-- Rendering a CNF clause structure the way `calculate_pcnf` prints it.  A
clause stores the literal polarity, so a clause literal derived from row value
`v` prints as negated exactly when `v` is true. -/
def renderCnf (clauses : List (List (String × Bool))) : String :=
  if clauses.isEmpty then "1"
  else String.intercalate " & "
    (clauses.map (fun c => "(" ++ String.intercalate "|" (c.map renderLit) ++ ")"))

/-- The PDNF string form in the words of the (amended) claim: the OR-join,
with separator `" | "`, of one parenthesized AND-term per truth-table row
whose output is true, each variable un-negated if true in that row and
prefixed with `!` otherwise; the literal constant `0` when no row is true. -/
def pdnfClaimString (tt : TruthTable) : String :=
  let trueRows := tt.rows.filter (fun r => r.2)
  if trueRows.isEmpty then "0"
  else
    String.intercalate " | "
      (trueRows.map (fun r =>
        "(" ++ String.intercalate "&"
          ((tt.vars.zip r.1).map (fun p => if p.2 then p.1 else "!" ++ p.1)) ++ ")"))

/-- The PCNF string form in the words of the (amended) claim: the AND-join,
with separator `" & "`, of one parenthesized OR-clause per row whose output is
false, each variable negated if true in that row and plain otherwise; the
literal constant `1` when no row is false. -/
def pcnfClaimString (tt : TruthTable) : String :=
  let falseRows := tt.rows.filter (fun r => !r.2)
  if falseRows.isEmpty then "1"
  else
    String.intercalate " & "
      (falseRows.map (fun r =>
        "(" ++ String.intercalate "|"
          ((tt.vars.zip r.1).map (fun p => if p.2 then "!" ++ p.1 else p.1)) ++ ")"))

/-! ## Operator normalization (`BooleanExpression._normalize`)

Python `str.replace(old, new)` rewrites every occurrence, scanning left to
right without rescanning inserted text; `str.strip()` drops surrounding
whitespace.  The following char-list implementations reproduce that (the
built-in `String.replace` is not kernel-reducible, so the model is spelled
out on `List Char`). -/

/-- Fuel-driven scan of Python `str.replace`: at each position, if the
pattern starts here, emit the replacement and continue after the match, else
keep the character.  One unit of fuel per consumed character, so fuel equal
to the string length completes the scan. -/
def replaceGo (pat rep : List Char) : Nat → List Char → List Char
  | 0, s => s
  | _ + 1, [] => []
  | fuel + 1, c :: rest =>
    if pat.isPrefixOf (c :: rest) then
      rep ++ replaceGo pat rep fuel (rest.drop (pat.length - 1))
    else c :: replaceGo pat rep fuel rest

/-- Model of Python `str.replace` on strings. -/
def strReplace (s pat rep : String) : String :=
  ⟨replaceGo pat.data rep.data s.data.length s.data⟩

/-- Whitespace test of Python `str.strip()` (the characters that occur in the
expressions at hand). -/
def isWs (c : Char) : Bool := c == ' ' || c == '\t' || c == '\n' || c == '\r'

/-- Model of Python `str.strip()` on char lists. -/
def trimL (s : List Char) : List Char :=
  ((s.dropWhile isWs).reverse.dropWhile isWs).reverse

/-- Model of Python `str.strip()`. -/
def strTrim (s : String) : String := ⟨trimL s.data⟩

/-- Embedding of `BooleanExpression._normalize`: the exact chain of
`str.replace` calls, in source order.  The first phase replaces the
multi-character IMPLICATION spellings, the second the multi-character
EQUIVALENCE spellings; then the non-canonical AND, OR, NOT, XOR, NAND, NOR
spellings.  No single-character EQUIVALENCE spelling is ever replaced. -/
def bNormalize (e : String) : String :=
  let e := strTrim e
  let e := strReplace e "->" "→"
  let e := strReplace e "=>" "→"
  let e := strReplace e "impl" "→"
  let e := strReplace e "IMPL" "→"
  let e := strReplace e "<->" "≡"
  let e := strReplace e "<=>" "≡"
  let e := strReplace e "eq" "≡"
  let e := strReplace e "EQ" "≡"
  let e := strReplace e "•" "&"
  let e := strReplace e "∧" "&"
  let e := strReplace e "*" "&"
  let e := strReplace e "and" "&"
  let e := strReplace e "AND" "&"
  let e := strReplace e "∨" "|"
  let e := strReplace e "+" "|"
  let e := strReplace e "or" "|"
  let e := strReplace e "OR" "|"
  let e := strReplace e "¬" "!"
  let e := strReplace e "~" "!"
  let e := strReplace e "not" "!"
  let e := strReplace e "NOT" "!"
  let e := strReplace e "⊕" "^"
  let e := strReplace e "xor" "^"
  let e := strReplace e "XOR" "^"
  let e := strReplace e "nand" "↑"
  let e := strReplace e "NAND" "↑"
  let e := strReplace e "nor" "↓"
  let e := strReplace e "NOR" "↓"
  e

/-! ## Circuit model (`src/circuit_model.py`) -/

/-- `SignalState` enumeration. -/
inductive SigState
  | low
  | high
  | unknown
  | highz
deriving DecidableEq, Repr

/-- `Signal` value type; the default constructor `Signal()` is UNKNOWN with
bit width 1 and value 0. -/
structure Signal where
  state : SigState := .unknown
  bitWidth : Nat := 1
  value : Nat := 0
deriving DecidableEq, Repr

/-- `Signal.from_bool`. -/
def Signal.fromBool (b : Bool) : Signal :=
  { state := if b then .high else .low, bitWidth := 1, value := if b then 1 else 0 }

/-- `PinType` enumeration. -/
inductive PinType
  | input
  | output
  | inout
deriving DecidableEq, Repr

/-- One pin of a component: name, direction and current signal (the layout
position is irrelevant to the claims and omitted). -/
structure PinData where
  name : String
  ptype : PinType
  sig : Signal := {}
deriving DecidableEq, Repr

/-- Component kinds the claims exercise (the source classes Switch, Button,
LED, Clock, NOTGate, ANDGate, ORGate, DFlipFlop). -/
inductive CompKind
  | switch
  | button
  | led
  | clockGen
  | notGate
  | andGate
  | orGate
  | dFlipFlop
deriving DecidableEq, Repr

/-- A component.  The per-class internal attributes of the source are pooled
into one record: `state` holds `Switch.state` / `Button.pressed` / `LED.lit`
/ `Clock.state` / `DFlipFlop.state`; `tickCount` and `frequency` belong to
Clock; `lastClock` to the flip-flop base class; `numInputs` to the gate base
class.  Each evaluation only touches the fields its kind owns, exactly as the
source classes do. -/
structure Comp where
  id : String
  kind : CompKind
  label : String := ""
  numInputs : Nat := 0
  state : Bool := false
  tickCount : Nat := 0
  frequency : Nat := 1
  lastClock : Bool := false
  pins : List PinData := []
deriving DecidableEq, Repr

/-- `Component.get_pin` (pins are a dict keyed by unique names). -/
def getPinD (c : Comp) (n : String) : Option PinData :=
  c.pins.find? (fun p => p.name == n)

/-- `pin.set_signal` through the owning component. -/
def setPinSigC (c : Comp) (n : String) (s : Signal) : Comp :=
  { c with pins := c.pins.map (fun p => if p.name == n then { p with sig := s } else p) }

/-- Test `pin.signal.state == SignalState.HIGH` for a named pin. -/
def pinHigh (c : Comp) (n : String) : Bool :=
  match getPinD c n with
  | some p => p.sig.state == .high
  | none => false

/-- `BaseGate.get_input_values`: one boolean per `in{i}` pin, False when a pin
is missing. -/
def getInputValues (c : Comp) : List Bool :=
  (List.range c.numInputs).map (fun i =>
    match getPinD c ("in" ++ toString i) with
    | some p => p.sig.state == SigState.high
    | none => false)

/-- Constructor of `Switch` (`components/io.py`): one OUTPUT pin `out`,
initial state False. -/
def mkSwitch (id label : String) : Comp :=
  { id, kind := .switch, label, pins := [{ name := "out", ptype := .output }] }

/-- Constructor of `Button`: one OUTPUT pin `out`; `state` models `pressed`. -/
def mkButton (id label : String) : Comp :=
  { id, kind := .button, label, pins := [{ name := "out", ptype := .output }] }

/-- Constructor of `LED`: one INPUT pin `in`; `state` models `lit`. -/
def mkLED (id label : String) : Comp :=
  { id, kind := .led, label, pins := [{ name := "in", ptype := .input }] }

/-- Constructor of `Clock`: one OUTPUT pin `out`, frequency 1 (ticks per
toggle), counter 0, state False. -/
def mkClock (id label : String) : Comp :=
  { id, kind := .clockGen, label, frequency := 1, pins := [{ name := "out", ptype := .output }] }

/-- Pins of `BaseGate._setup_pins`: `in0..in{n-1}` then `out`. -/
def gatePins (n : Nat) : List PinData :=
  (List.range n).map (fun i => { name := "in" ++ toString i, ptype := .input }) ++
    [{ name := "out", ptype := .output }]

/-- Constructor of `NOTGate`: one input. -/
def mkNotGate (id label : String) : Comp :=
  { id, kind := .notGate, label, numInputs := 1, pins := gatePins 1 }

/-- Constructor of `ANDGate` (default two inputs). -/
def mkAndGate (id label : String) (n : Nat := 2) : Comp :=
  { id, kind := .andGate, label, numInputs := n, pins := gatePins n }

/-- Constructor of `ORGate` (default two inputs). -/
def mkOrGate (id label : String) (n : Nat := 2) : Comp :=
  { id, kind := .orGate, label, numInputs := n, pins := gatePins n }

/-- Constructor of `DFlipFlop`: pins D, CLK (inputs), Q, Qn (outputs; the
source names the second output pin Q-prime). -/
def mkDFlipFlop (id label : String) : Comp :=
  { id, kind := .dFlipFlop, label,
    pins := [{ name := "D", ptype := .input }, { name := "CLK", ptype := .input },
             { name := "Q", ptype := .output }, { name := "Qn", ptype := .output }] }

/-- The `evaluate()` methods of the embedded component classes, dispatched on
the kind exactly as the source subclasses implement them. -/
def evalComp (c : Comp) : Comp :=
  match c.kind with
  | .switch => setPinSigC c "out" (Signal.fromBool c.state)
  | .button => setPinSigC c "out" (Signal.fromBool c.state)
  | .led => { c with state := pinHigh c "in" }
  | .clockGen =>
    let t := c.tickCount + 1
    if t ≥ c.frequency then
      setPinSigC { c with tickCount := 0, state := !c.state } "out" (Signal.fromBool (!c.state))
    else
      setPinSigC { c with tickCount := t } "out" (Signal.fromBool c.state)
  | .notGate =>
    let ins := getInputValues c
    let r := match ins with
      | [] => true
      | x :: _ => !x
    setPinSigC c "out" (Signal.fromBool r)
  | .andGate =>
    let ins := getInputValues c
    let r := if ins.isEmpty then false else ins.all (fun x => x)
    setPinSigC c "out" (Signal.fromBool r)
  | .orGate =>
    let ins := getInputValues c
    let r := if ins.isEmpty then false else ins.any (fun x => x)
    setPinSigC c "out" (Signal.fromBool r)
  | .dFlipFlop =>
    let clk := pinHigh c "CLK"
    let rising := !c.lastClock && clk
    let st := if rising then pinHigh c "D" else c.state
    let c1 := { c with lastClock := clk, state := st }
    setPinSigC (setPinSigC c1 "Q" (Signal.fromBool st)) "Qn" (Signal.fromBool (!st))

/-- Handle standing for a Python reference to a `Pin` object: owning
component id plus pin name. -/
structure PinRef where
  comp : String
  pin : String
deriving DecidableEq, Repr

/-- A wire: id, its two endpoint pins and the cached signal.  The
`connected_wires` back-lists on pins are bookkeeping the claims never
observe and are not modelled. -/
structure WireC where
  id : String
  startRef : PinRef
  endRef : PinRef
  sig : Signal := {}
deriving DecidableEq, Repr

/-- A circuit: insertion-ordered components and wires (Python dicts preserve
insertion order; ids are unique keys) plus the id counters. -/
structure CircuitC where
  components : List Comp := []
  wires : List WireC := []
  nextCompId : Nat := 0
  nextWireId : Nat := 0
deriving DecidableEq, Repr

/-- `Circuit.add_component`: assigns `comp_{k}` when the id is blank,
then inserts into the dict (overwriting in place when the key exists). -/
def addComponent (c : CircuitC) (comp0 : Comp) : CircuitC × String :=
  let comp := if comp0.id == "" then { comp0 with id := "comp_" ++ toString c.nextCompId } else comp0
  let n := if comp0.id == "" then c.nextCompId + 1 else c.nextCompId
  let comps :=
    if c.components.any (fun x => x.id == comp.id) then
      c.components.map (fun x => if x.id == comp.id then comp else x)
    else c.components ++ [comp]
  ({ c with components := comps, nextCompId := n }, comp.id)

/-- `Circuit.remove_component`: silently does nothing for an unknown id; for
a known id it removes every wire one of whose endpoint pins belongs to the
component (the source tests `wire.start_pin in component.pins.values()` by
object identity, which the handle model renders as matching owner id), then
deletes the component. -/
def removeComponent (c : CircuitC) (cid : String) : CircuitC :=
  if c.components.any (fun x => x.id == cid) then
    { c with
      components := c.components.filter (fun x => x.id != cid),
      wires := c.wires.filter (fun w => !(w.startRef.comp == cid || w.endRef.comp == cid)) }
  else c

/-- `Circuit.add_wire`: assigns `wire_{k}` when the id is blank, then inserts
(overwriting in place when the key exists).  No validation of the endpoint
pins happens. -/
def addWire (c : CircuitC) (w0 : WireC) : CircuitC × String :=
  let w := if w0.id == "" then { w0 with id := "wire_" ++ toString c.nextWireId } else w0
  let n := if w0.id == "" then c.nextWireId + 1 else c.nextWireId
  let ws :=
    if c.wires.any (fun x => x.id == w.id) then
      c.wires.map (fun x => if x.id == w.id then w else x)
    else c.wires ++ [w]
  ({ c with wires := ws, nextWireId := n }, w.id)

/-- `Circuit.remove_wire`: silently does nothing for an unknown id. -/
def removeWire (c : CircuitC) (wid : String) : CircuitC :=
  if c.wires.any (fun x => x.id == wid) then
    { c with wires := c.wires.filter (fun x => x.id != wid) }
  else c

/-- The endpoint of a wire refers to a component currently present. -/
def compPresent (c : CircuitC) (cid : String) : Prop :=
  ∃ comp ∈ c.components, comp.id = cid

instance (c : CircuitC) (cid : String) : Decidable (compPresent c cid) := by
  unfold compPresent
  infer_instance

/-- The C4 invariant: every pin referenced by any wire belongs to a component
currently present in the circuit. -/
def WireInv (c : CircuitC) : Prop :=
  ∀ w ∈ c.wires, compPresent c w.startRef.comp ∧ compPresent c w.endRef.comp

instance (c : CircuitC) : Decidable (WireInv c) := by
  unfold WireInv
  infer_instance

/-- The state `Wire.propagate` reads and writes: the two endpoint pin types
and signals plus the cached wire signal. -/
structure WireSt where
  startType : PinType
  startSig : Signal
  endType : PinType
  endSig : Signal
  sig : Signal
deriving DecidableEq, Repr

/-- Embedding of `Wire.propagate` (`circuit_model.py`): when the start pin is
OUTPUT the start signal is copied to the wire and the end pin; otherwise,
when the end pin is OUTPUT, the end signal is copied to the wire and the
start pin; otherwise nothing happens. -/
def wirePropagate (st : WireSt) : WireSt :=
  if st.startType == .output then
    { st with sig := st.startSig, endSig := st.startSig }
  else if st.endType == .output then
    { st with sig := st.endSig, startSig := st.endSig }
  else st

/-- A wire whose endpoints name components absent from the circuit. -/
def ghostWire : WireC :=
  { id := "w9", startRef := { comp := "ghost", pin := "out" },
    endRef := { comp := "ghost2", pin := "in" } }

/-- A concrete two-component, one-wire circuit used as the C4 witness. -/
def c4Example : CircuitC :=
  let c1 := (addComponent {} (mkSwitch "" "A")).1
  let c2 := (addComponent c1 (mkLED "" "L")).1
  (addWire c2 { id := "", startRef := { comp := "comp_0", pin := "out" },
                endRef := { comp := "comp_1", pin := "in" } }).1

/-! ## Simulation engine (`src/simulation_engine.py`) -/

/-- Dereference a pin handle in the circuit. -/
def getCircuitPin (c : CircuitC) (r : PinRef) : Option PinData :=
  match c.components.find? (fun comp => comp.id == r.comp) with
  | some comp => getPinD comp r.pin
  | none => none

/-- Write a signal through a pin handle. -/
def setCircuitPinSig (c : CircuitC) (r : PinRef) (s : Signal) : CircuitC :=
  { c with components := c.components.map (fun comp =>
      if comp.id == r.comp then setPinSigC comp r.pin s else comp) }

/-- One wire of `_propagate_signals`: read the endpoint pins, apply
`Wire.propagate`, write the endpoint signals and the wire cache back.  A
dangling handle cannot arise for circuits built through the source API and is
treated as a no-op. -/
def propagateStep (c : CircuitC) (w : WireC) : CircuitC × WireC :=
  match getCircuitPin c w.startRef, getCircuitPin c w.endRef with
  | some sp, some ep =>
    let st := wirePropagate
      { startType := sp.ptype, startSig := sp.sig, endType := ep.ptype, endSig := ep.sig,
        sig := w.sig }
    (setCircuitPinSig (setCircuitPinSig c w.startRef st.startSig) w.endRef st.endSig,
      { w with sig := st.sig })
  | _, _ => (c, w)

/-- `SimulationEngine._propagate_signals`: every wire in insertion order,
later wires seeing the pin updates of earlier ones. -/
def propagateAll (c : CircuitC) : CircuitC :=
  let fanOut := c.wires.foldl
    (fun (acc : CircuitC × List WireC) w =>
      let (c2, w2) := propagateStep acc.1 w
      (c2, acc.2 ++ [w2]))
    (c, [])
  { fanOut.1 with wires := fanOut.2 }

/-- Per-component change test of `_evaluate_circuit`: the output pins are
snapshotted by name before `evaluate()` and compared by `.state` afterwards;
`evaluate()` never renames, retypes, adds or removes pins, so positional
comparison over the pin list coincides with the by-name dict comparison. -/
def outputsChanged (old new : Comp) : Bool :=
  (old.pins.zip new.pins).any (fun pq =>
    pq.1.ptype == PinType.output && pq.1.sig.state != pq.2.sig.state)

/-- One full pass of the `for component in self.circuit.components.values()`
loop: evaluate every component (each touches only its own pins, so the pass
is the pointwise map) and accumulate whether any output pin state changed. -/
def evalPass (c : CircuitC) : CircuitC × Bool :=
  let comps := c.components.map evalComp
  ({ c with components := comps },
    (c.components.zip comps).any (fun pq => outputsChanged pq.1 pq.2))

/-- Iterated evaluation passes (state only). -/
def iterPass (k : Nat) (c : CircuitC) : CircuitC :=
  match k with
  | 0 => c
  | k + 1 => iterPass k (evalPass c).1

/-- The `while iteration < max_iterations` loop of `_evaluate_circuit`:
run a pass, increment the counter, stop when the pass changed nothing.  Fuel
is the remaining number of allowed iterations. -/
def evalGo (fuel : Nat) (c : CircuitC) (iter : Nat) : CircuitC × Nat :=
  match fuel with
  | 0 => (c, iter)
  | fuel + 1 =>
    let pass := evalPass c
    if pass.2 then evalGo fuel pass.1 (iter + 1) else (pass.1, iter + 1)

/-- `_evaluate_circuit`: the loop plus the warning printed exactly when the
final iteration count reaches the bound (SIM_MAX_PROPAGATION_DEPTH; the
constants module is not part of the sources at hand, so the bound is a
parameter).  Returns the circuit, the number of passes run, and whether the
non-convergence warning fired. -/
def evaluateCircuit (maxIterations : Nat) (c : CircuitC) : CircuitC × Nat × Bool :=
  let r := evalGo maxIterations c 0
  (r.1, r.2, decide (r.2 ≥ maxIterations))

/-- The engine state around the circuit: `tick_count` and the
`evaluated_components` per-step bookkeeping set (`propagation_queue` is never
populated by the source and is omitted). -/
structure Engine where
  circuit : CircuitC
  tickCount : Nat := 0
  evaluated : List String := []
deriving DecidableEq, Repr

/-- `SimulationEngine.step`: bump the tick, clear the bookkeeping, propagate,
evaluate to a fixed point, propagate again.  The pass count and warning flag
of the evaluation phase are returned alongside (the source prints the
warning). -/
def stepEngine (maxIterations : Nat) (e : Engine) : Engine × Nat × Bool :=
  let c1 := propagateAll e.circuit
  let r := evaluateCircuit maxIterations c1
  let c3 := propagateAll r.1
  ({ circuit := c3, tickCount := e.tickCount + 1, evaluated := [] }, r.2.1, r.2.2)

/-- `SimulationEngine.reset`: zero the tick, clear the bookkeeping, and force
every pin signal of every component and every wire signal to the default
UNKNOWN `Signal()`; nothing else of any component is touched. -/
def resetEngine (e : Engine) : Engine :=
  { tickCount := 0, evaluated := [],
    circuit := { e.circuit with
      components := e.circuit.components.map (fun comp =>
        { comp with pins := comp.pins.map (fun p => { p with sig := {} }) }),
      wires := e.circuit.wires.map (fun w => { w with sig := {} }) } }

/-- The frame condition C9 asserts of `reset()`: tick count and per-step
bookkeeping cleared, every pin signal of every component and every wire
signal forced to the default UNKNOWN signal, while the component list keeps
its length and every component keeps its identity, kind, label and all
internal memory (`state`, `tickCount`, `frequency`, `lastClock`) as well as
its pin names and types. -/
def ResetSpec (e : Engine) : Prop :=
  (resetEngine e).tickCount = 0 ∧
  (resetEngine e).evaluated = [] ∧
  (∀ comp ∈ (resetEngine e).circuit.components, ∀ p ∈ comp.pins, p.sig = {}) ∧
  (∀ w ∈ (resetEngine e).circuit.wires, w.sig = {}) ∧
  (resetEngine e).circuit.components.length = e.circuit.components.length ∧
  (∀ i : Nat, ∀ comp comp' : Comp,
    e.circuit.components.get? i = some comp →
    (resetEngine e).circuit.components.get? i = some comp' →
    comp'.id = comp.id ∧ comp'.kind = comp.kind ∧ comp'.label = comp.label ∧
    comp'.numInputs = comp.numInputs ∧ comp'.state = comp.state ∧
    comp'.tickCount = comp.tickCount ∧ comp'.frequency = comp.frequency ∧
    comp'.lastClock = comp.lastClock ∧
    comp'.pins.map (fun p => (p.name, p.ptype)) = comp.pins.map (fun p => (p.name, p.ptype)))

/-- What C3 claims of one `step()` call with a positive iteration bound:
there is a pass count `k` between 1 and the bound such that the step equals
one propagation over all wires, then exactly `k` full evaluation passes over
the components in insertion order, then one more propagation; the tick
advances and the bookkeeping set is cleared; the returned pass count is `k`
and the warning fires exactly when the bound was reached; if the loop
stopped below the bound its last pass changed no output pin, and every pass
before the last changed some output pin (the last computed values are kept
either way — the final state is the `k`-fold pass iterate, never rolled
back). -/
def StepSpec (maxIterations : Nat) (e : Engine) : Prop :=
  ∃ k, 1 ≤ k ∧ k ≤ maxIterations ∧
    stepEngine maxIterations e =
      ({ circuit := propagateAll (iterPass k (propagateAll e.circuit)),
         tickCount := e.tickCount + 1, evaluated := [] },
       k, decide (k ≥ maxIterations)) ∧
    (k < maxIterations → (evalPass (iterPass (k - 1) (propagateAll e.circuit))).2 = false) ∧
    (∀ j, j + 1 < k → (evalPass (iterPass j (propagateAll e.circuit))).2 = true)

/-- A one-switch, one-LED engine used to witness C3 and C6. -/
def engineEx : Engine :=
  { circuit :=
      { components := [{ mkSwitch "s" "A" with state := true }, mkLED "l" "L"],
        wires := [{ id := "w", startRef := { comp := "s", pin := "out" },
                    endRef := { comp := "l", pin := "in" } }] } }

/-! ## The Clock component and convergence (C10) -/

/-- The single OUTPUT pin `out` of a source `Clock`, carrying signal `s`. -/
def outPin (s : Signal) : PinData := { name := "out", ptype := .output, sig := s }

/-- A clock whose output pin was already driven HIGH while its internal state
is still False (reachable, e.g., by wiring another OUTPUT pin onto the clock
output, or by setting the pin directly). -/
def clockBad : Comp := { mkClock "c" "CLK" with pins := [outPin (Signal.fromBool true)] }

/-- A component shaped like a source `Clock` with frequency 1: clock kind,
frequency 1, and the single OUTPUT pin `out` of the constructor. -/
def ClockShape (comp : Comp) : Prop :=
  comp.kind = CompKind.clockGen ∧ comp.frequency = 1 ∧
  ∃ s : Signal, comp.pins = [outPin s]

/-- A circuit holding a single default clock, used to witness C10. -/
def clockCircuit : CircuitC := { components := [mkClock "c" "CLK"] }

/-! ## Synthesizer (`src/utils/circuit_from_form.py`) -/

/-- Python `str.split(sep)` for a one-character separator (the source splits
on `re.split` patterns `\s*\|\s*` and `\s*&\s*`; every piece is stripped
right afterwards, so splitting on the bare character is equivalent). -/
def splitOnCharL (ch : Char) : List Char → List (List Char)
  | [] => [[]]
  | c :: rest =>
    let r := splitOnCharL ch rest
    if c == ch then [] :: r
    else (c :: r.headD []) :: r.tail

/-- Python `str.strip(chars)` for the paren set, as in `strip('()')`. -/
def stripParensL (s : List Char) : List Char :=
  ((s.dropWhile (fun c => c == '(' || c == ')')).reverse.dropWhile
    (fun c => c == '(' || c == ')')).reverse

/-- One literal of `_parse_dnf_terms`: strip, then a leading `!`/`~`/`¬`
makes it negative with the rest (stripped) as variable name. -/
def parseLiteral (lit0 : List Char) : String × Bool :=
  let lit := trimL lit0
  match lit with
  | c :: rest =>
    if c == '!' || c == '~' || c == '¬' then (⟨trimL rest⟩, false)
    else (⟨lit⟩, true)
  | [] => ("", true)

/-- Embedding of `_parse_dnf_terms`: split on `|`, strip each term of
whitespace then surrounding parens, split on `&` into literals; keep
nonempty terms. -/
def parseDnfTerms (dnf : String) : List (List (String × Bool)) :=
  ((splitOnCharL '|' dnf.data).map (fun t =>
    (splitOnCharL '&' (stripParensL (trimL t))).map parseLiteral)).filter
    (fun term => !term.isEmpty)

/-- Test `component.get_pin(name)` being non-None through the circuit. -/
def pinExistsAt (c : CircuitC) (cid pname : String) : Bool :=
  match c.components.find? (fun comp => comp.id == cid) with
  | some comp => (getPinD comp pname).isSome
  | none => false

/-- `_create_input_switches`: one Switch per variable, labelled by it,
auto-id assigned by the circuit; returns the variable→switch-id mapping. -/
def createInputSwitches (c : CircuitC) (vars : List String) :
    CircuitC × List (String × String) :=
  vars.foldl (fun acc v =>
    let r := addComponent acc.1 (mkSwitch "" v)
    (r.1, acc.2 ++ [(v, r.2)])) (c, [])

/-- `_create_not_gates`: one NOT gate per variable, wired from that
variable's switch when both pins exist.  The `input_switches[var]` dict
access raises on a missing key, modelled by the `Option` bind (the partial
circuit built before a raise is dropped with the failure, which no claim
observes). -/
def createNotGates (c : CircuitC) (vars : List String)
    (switches : List (String × String)) : Option (CircuitC × List (String × String)) :=
  vars.foldlM (fun acc v => do
    let r := addComponent acc.1 (mkNotGate "" ("NOT_" ++ v))
    let swId ← List.lookup v switches
    let c2 :=
      if pinExistsAt r.1 swId "out" && pinExistsAt r.1 r.2 "in0" then
        (addWire r.1 { id := "", startRef := { comp := swId, pin := "out" },
                       endRef := { comp := r.2, pin := "in0" } }).1
      else r.1
    pure (c2, acc.2 ++ [(v, r.2)])) (c, [])

/-- The wiring of one enumerated literal inside `_create_term_and_gate`:
look the source component up in the switch map (positive literal) or the NOT
map (negative literal), and wire its `out` pin to `in{i}` of the gate when
both pins exist. -/
def wireLiteral (switches notGates : List (String × String)) (gid : String)
    (st : CircuitC) (p : Nat × (String × Bool)) : Option CircuitC := do
  let srcId ← List.lookup p.2.1 (if p.2.2 then switches else notGates)
  let dest := "in" ++ toString p.1
  pure (if pinExistsAt st srcId "out" && pinExistsAt st gid dest then
    (addWire st { id := "", startRef := { comp := srcId, pin := "out" },
                  endRef := { comp := gid, pin := dest } }).1
  else st)

/-- `_create_term_and_gate`: a two-input AND gate labelled `AND{i+1}`; the
enumeration loop breaks at index 2, so only the first two literals of the
term are ever wired (`term.take 2`). -/
def createTermAndGate (c : CircuitC) (term : List (String × Bool))
    (switches notGates : List (String × String)) (termIndex : Nat) :
    Option (CircuitC × String) := do
  let r := addComponent c (mkAndGate "" ("AND" ++ toString (termIndex + 1)) 2)
  let c2 ← (term.take 2).enum.foldlM (wireLiteral switches notGates r.2) r.1
  pure (c2, r.2)

/-- `_create_final_or_gate`: an OR gate wired from the first two AND gate
outputs only. -/
def createFinalOrGate (c : CircuitC) (gates : List String) : CircuitC × String :=
  let r := addComponent c (mkOrGate "" "OR_FINAL" 2)
  let c2 := (gates.take 2).enum.foldl (fun st p =>
    (addWire st { id := "", startRef := { comp := p.2, pin := "out" },
                  endRef := { comp := r.2, pin := "in" ++ toString p.1 } }).1) r.1
  (c2, r.2)

/-- `_create_output_led`: an LED labelled Output wired from the final gate. -/
def createOutputLed (c : CircuitC) (finalId : String) : CircuitC :=
  let r := addComponent c (mkLED "" "Output")
  (addWire r.1 { id := "", startRef := { comp := finalId, pin := "out" },
                 endRef := { comp := r.2, pin := "in" } }).1

/-- `build_from_pdnf`: parse, build switches, NOT gates, one AND gate per
term, a final OR gate when there are at least two terms, and the LED;
`none` models both the `return False` paths and a raised exception. -/
def buildFromPdnf (c : CircuitC) (pdnf : String) (vars : List String) :
    Option CircuitC := do
  let terms := parseDnfTerms pdnf
  if terms.isEmpty then none
  else
    let s := createInputSwitches c vars
    let r2 ← createNotGates s.1 vars s.2
    let r3 ← terms.enum.foldlM (fun (acc : CircuitC × List String) p => do
      let r ← createTermAndGate acc.1 p.2 s.2 r2.2 p.1
      pure (r.1, acc.2 ++ [r.2])) (r2.1, ([] : List String))
    if r3.2.length > 1 then
      let f := createFinalOrGate r3.1 r3.2
      pure (createOutputLed f.1 f.2)
    else if r3.2.length == 1 then
      pure (createOutputLed r3.1 (r3.2.headD ""))
    else none

/-- The circuit synthesized from the PDNF `(A&B)` over variables `[A, B]`. -/
def synthABc : CircuitC := (buildFromPdnf {} "(A&B)" ["A", "B"]).getD {}

/-- `Switch.set_state` through the circuit: assign the state, then
immediately re-evaluate the switch. -/
def setSwitchState (c : CircuitC) (cid : String) (b : Bool) : CircuitC :=
  { c with components := c.components.map (fun comp =>
      if comp.id == cid then evalComp { comp with state := b } else comp) }

/-- The synthesized circuit with both switches set true. -/
def c6ready : CircuitC := setSwitchState (setSwitchState synthABc "comp_0" true) "comp_1" true

/-- `LED.lit` of the synthesized output LED. -/
def ledLit (c : CircuitC) : Bool :=
  match c.components.find? (fun comp => comp.id == "comp_5") with
  | some comp => comp.state
  | none => false

/-- The circuit value `build_from_pdnf` computes for `(A&B)` over `[A, B]`
(spelled out; the equality with `buildFromPdnf` is proved in C6). -/
def c6built : CircuitC :=
{ components := [{ id := "comp_0",
                   kind := CompKind.switch,
                   label := "A",
                   numInputs := 0,
                   state := false,
                   tickCount := 0,
                   frequency := 1,
                   lastClock := false,
                   pins := [{ name := "out",
                              ptype := PinType.output,
                              sig := { state := SigState.unknown, bitWidth := 1, value := 0 } }] },
                 { id := "comp_1",
                   kind := CompKind.switch,
                   label := "B",
                   numInputs := 0,
                   state := false,
                   tickCount := 0,
                   frequency := 1,
                   lastClock := false,
                   pins := [{ name := "out",
                              ptype := PinType.output,
                              sig := { state := SigState.unknown, bitWidth := 1, value := 0 } }] },
                 { id := "comp_2",
                   kind := CompKind.notGate,
                   label := "NOT_A",
                   numInputs := 1,
                   state := false,
                   tickCount := 0,
                   frequency := 1,
                   lastClock := false,
                   pins := [{ name := "in0",
                              ptype := PinType.input,
                              sig := { state := SigState.unknown, bitWidth := 1, value := 0 } },
                            { name := "out",
                              ptype := PinType.output,
                              sig := { state := SigState.unknown, bitWidth := 1, value := 0 } }] },
                 { id := "comp_3",
                   kind := CompKind.notGate,
                   label := "NOT_B",
                   numInputs := 1,
                   state := false,
                   tickCount := 0,
                   frequency := 1,
                   lastClock := false,
                   pins := [{ name := "in0",
                              ptype := PinType.input,
                              sig := { state := SigState.unknown, bitWidth := 1, value := 0 } },
                            { name := "out",
                              ptype := PinType.output,
                              sig := { state := SigState.unknown, bitWidth := 1, value := 0 } }] },
                 { id := "comp_4",
                   kind := CompKind.andGate,
                   label := "AND1",
                   numInputs := 2,
                   state := false,
                   tickCount := 0,
                   frequency := 1,
                   lastClock := false,
                   pins := [{ name := "in0",
                              ptype := PinType.input,
                              sig := { state := SigState.unknown, bitWidth := 1, value := 0 } },
                            { name := "in1",
                              ptype := PinType.input,
                              sig := { state := SigState.unknown, bitWidth := 1, value := 0 } },
                            { name := "out",
                              ptype := PinType.output,
                              sig := { state := SigState.unknown, bitWidth := 1, value := 0 } }] },
                 { id := "comp_5",
                   kind := CompKind.led,
                   label := "Output",
                   numInputs := 0,
                   state := false,
                   tickCount := 0,
                   frequency := 1,
                   lastClock := false,
                   pins := [{ name := "in",
                              ptype := PinType.input,
                              sig := { state := SigState.unknown, bitWidth := 1, value := 0 } }] }],
  wires := [{ id := "wire_0",
              startRef := { comp := "comp_0", pin := "out" },
              endRef := { comp := "comp_2", pin := "in0" },
              sig := { state := SigState.unknown, bitWidth := 1, value := 0 } },
            { id := "wire_1",
              startRef := { comp := "comp_1", pin := "out" },
              endRef := { comp := "comp_3", pin := "in0" },
              sig := { state := SigState.unknown, bitWidth := 1, value := 0 } },
            { id := "wire_2",
              startRef := { comp := "comp_0", pin := "out" },
              endRef := { comp := "comp_4", pin := "in0" },
              sig := { state := SigState.unknown, bitWidth := 1, value := 0 } },
            { id := "wire_3",
              startRef := { comp := "comp_1", pin := "out" },
              endRef := { comp := "comp_4", pin := "in1" },
              sig := { state := SigState.unknown, bitWidth := 1, value := 0 } },
            { id := "wire_4",
              startRef := { comp := "comp_4", pin := "out" },
              endRef := { comp := "comp_5", pin := "in" },
              sig := { state := SigState.unknown, bitWidth := 1, value := 0 } }],
  nextCompId := 6,
  nextWireId := 5 }

/-- The synthesized circuit, both switches set true, after the first
propagation of step 1 (computed value, verified in C6). -/
def c6s0 : CircuitC :=
{ components := [{ id := "comp_0",
                   kind := CompKind.switch,
                   label := "A",
                   numInputs := 0,
                   state := true,
                   tickCount := 0,
                   frequency := 1,
                   lastClock := false,
                   pins := [{ name := "out",
                              ptype := PinType.output,
                              sig := { state := SigState.high, bitWidth := 1, value := 1 } }] },
                 { id := "comp_1",
                   kind := CompKind.switch,
                   label := "B",
                   numInputs := 0,
                   state := true,
                   tickCount := 0,
                   frequency := 1,
                   lastClock := false,
                   pins := [{ name := "out",
                              ptype := PinType.output,
                              sig := { state := SigState.high, bitWidth := 1, value := 1 } }] },
                 { id := "comp_2",
                   kind := CompKind.notGate,
                   label := "NOT_A",
                   numInputs := 1,
                   state := false,
                   tickCount := 0,
                   frequency := 1,
                   lastClock := false,
                   pins := [{ name := "in0",
                              ptype := PinType.input,
                              sig := { state := SigState.high, bitWidth := 1, value := 1 } },
                            { name := "out",
                              ptype := PinType.output,
                              sig := { state := SigState.unknown, bitWidth := 1, value := 0 } }] },
                 { id := "comp_3",
                   kind := CompKind.notGate,
                   label := "NOT_B",
                   numInputs := 1,
                   state := false,
                   tickCount := 0,
                   frequency := 1,
                   lastClock := false,
                   pins := [{ name := "in0",
                              ptype := PinType.input,
                              sig := { state := SigState.high, bitWidth := 1, value := 1 } },
                            { name := "out",
                              ptype := PinType.output,
                              sig := { state := SigState.unknown, bitWidth := 1, value := 0 } }] },
                 { id := "comp_4",
                   kind := CompKind.andGate,
                   label := "AND1",
                   numInputs := 2,
                   state := false,
                   tickCount := 0,
                   frequency := 1,
                   lastClock := false,
                   pins := [{ name := "in0",
                              ptype := PinType.input,
                              sig := { state := SigState.high, bitWidth := 1, value := 1 } },
                            { name := "in1",
                              ptype := PinType.input,
                              sig := { state := SigState.high, bitWidth := 1, value := 1 } },
                            { name := "out",
                              ptype := PinType.output,
                              sig := { state := SigState.unknown, bitWidth := 1, value := 0 } }] },
                 { id := "comp_5",
                   kind := CompKind.led,
                   label := "Output",
                   numInputs := 0,
                   state := false,
                   tickCount := 0,
                   frequency := 1,
                   lastClock := false,
                   pins := [{ name := "in",
                              ptype := PinType.input,
                              sig := { state := SigState.unknown, bitWidth := 1, value := 0 } }] }],
  wires := [{ id := "wire_0",
              startRef := { comp := "comp_0", pin := "out" },
              endRef := { comp := "comp_2", pin := "in0" },
              sig := { state := SigState.high, bitWidth := 1, value := 1 } },
            { id := "wire_1",
              startRef := { comp := "comp_1", pin := "out" },
              endRef := { comp := "comp_3", pin := "in0" },
              sig := { state := SigState.high, bitWidth := 1, value := 1 } },
            { id := "wire_2",
              startRef := { comp := "comp_0", pin := "out" },
              endRef := { comp := "comp_4", pin := "in0" },
              sig := { state := SigState.high, bitWidth := 1, value := 1 } },
            { id := "wire_3",
              startRef := { comp := "comp_1", pin := "out" },
              endRef := { comp := "comp_4", pin := "in1" },
              sig := { state := SigState.high, bitWidth := 1, value := 1 } },
            { id := "wire_4",
              startRef := { comp := "comp_4", pin := "out" },
              endRef := { comp := "comp_5", pin := "in" },
              sig := { state := SigState.unknown, bitWidth := 1, value := 0 } }],
  nextCompId := 6,
  nextWireId := 5 }

/-- Fixed point of the evaluation passes of step 1 (computed value). -/
def c6s1 : CircuitC :=
{ components := [{ id := "comp_0",
                   kind := CompKind.switch,
                   label := "A",
                   numInputs := 0,
                   state := true,
                   tickCount := 0,
                   frequency := 1,
                   lastClock := false,
                   pins := [{ name := "out",
                              ptype := PinType.output,
                              sig := { state := SigState.high, bitWidth := 1, value := 1 } }] },
                 { id := "comp_1",
                   kind := CompKind.switch,
                   label := "B",
                   numInputs := 0,
                   state := true,
                   tickCount := 0,
                   frequency := 1,
                   lastClock := false,
                   pins := [{ name := "out",
                              ptype := PinType.output,
                              sig := { state := SigState.high, bitWidth := 1, value := 1 } }] },
                 { id := "comp_2",
                   kind := CompKind.notGate,
                   label := "NOT_A",
                   numInputs := 1,
                   state := false,
                   tickCount := 0,
                   frequency := 1,
                   lastClock := false,
                   pins := [{ name := "in0",
                              ptype := PinType.input,
                              sig := { state := SigState.high, bitWidth := 1, value := 1 } },
                            { name := "out",
                              ptype := PinType.output,
                              sig := { state := SigState.low, bitWidth := 1, value := 0 } }] },
                 { id := "comp_3",
                   kind := CompKind.notGate,
                   label := "NOT_B",
                   numInputs := 1,
                   state := false,
                   tickCount := 0,
                   frequency := 1,
                   lastClock := false,
                   pins := [{ name := "in0",
                              ptype := PinType.input,
                              sig := { state := SigState.high, bitWidth := 1, value := 1 } },
                            { name := "out",
                              ptype := PinType.output,
                              sig := { state := SigState.low, bitWidth := 1, value := 0 } }] },
                 { id := "comp_4",
                   kind := CompKind.andGate,
                   label := "AND1",
                   numInputs := 2,
                   state := false,
                   tickCount := 0,
                   frequency := 1,
                   lastClock := false,
                   pins := [{ name := "in0",
                              ptype := PinType.input,
                              sig := { state := SigState.high, bitWidth := 1, value := 1 } },
                            { name := "in1",
                              ptype := PinType.input,
                              sig := { state := SigState.high, bitWidth := 1, value := 1 } },
                            { name := "out",
                              ptype := PinType.output,
                              sig := { state := SigState.high, bitWidth := 1, value := 1 } }] },
                 { id := "comp_5",
                   kind := CompKind.led,
                   label := "Output",
                   numInputs := 0,
                   state := false,
                   tickCount := 0,
                   frequency := 1,
                   lastClock := false,
                   pins := [{ name := "in",
                              ptype := PinType.input,
                              sig := { state := SigState.unknown, bitWidth := 1, value := 0 } }] }],
  wires := [{ id := "wire_0",
              startRef := { comp := "comp_0", pin := "out" },
              endRef := { comp := "comp_2", pin := "in0" },
              sig := { state := SigState.high, bitWidth := 1, value := 1 } },
            { id := "wire_1",
              startRef := { comp := "comp_1", pin := "out" },
              endRef := { comp := "comp_3", pin := "in0" },
              sig := { state := SigState.high, bitWidth := 1, value := 1 } },
            { id := "wire_2",
              startRef := { comp := "comp_0", pin := "out" },
              endRef := { comp := "comp_4", pin := "in0" },
              sig := { state := SigState.high, bitWidth := 1, value := 1 } },
            { id := "wire_3",
              startRef := { comp := "comp_1", pin := "out" },
              endRef := { comp := "comp_4", pin := "in1" },
              sig := { state := SigState.high, bitWidth := 1, value := 1 } },
            { id := "wire_4",
              startRef := { comp := "comp_4", pin := "out" },
              endRef := { comp := "comp_5", pin := "in" },
              sig := { state := SigState.unknown, bitWidth := 1, value := 0 } }],
  nextCompId := 6,
  nextWireId := 5 }

/-- State after the final propagation of step 1: the AND output has reached
the LED input pin (computed value). -/
def c6s2 : CircuitC :=
{ components := [{ id := "comp_0",
                   kind := CompKind.switch,
                   label := "A",
                   numInputs := 0,
                   state := true,
                   tickCount := 0,
                   frequency := 1,
                   lastClock := false,
                   pins := [{ name := "out",
                              ptype := PinType.output,
                              sig := { state := SigState.high, bitWidth := 1, value := 1 } }] },
                 { id := "comp_1",
                   kind := CompKind.switch,
                   label := "B",
                   numInputs := 0,
                   state := true,
                   tickCount := 0,
                   frequency := 1,
                   lastClock := false,
                   pins := [{ name := "out",
                              ptype := PinType.output,
                              sig := { state := SigState.high, bitWidth := 1, value := 1 } }] },
                 { id := "comp_2",
                   kind := CompKind.notGate,
                   label := "NOT_A",
                   numInputs := 1,
                   state := false,
                   tickCount := 0,
                   frequency := 1,
                   lastClock := false,
                   pins := [{ name := "in0",
                              ptype := PinType.input,
                              sig := { state := SigState.high, bitWidth := 1, value := 1 } },
                            { name := "out",
                              ptype := PinType.output,
                              sig := { state := SigState.low, bitWidth := 1, value := 0 } }] },
                 { id := "comp_3",
                   kind := CompKind.notGate,
                   label := "NOT_B",
                   numInputs := 1,
                   state := false,
                   tickCount := 0,
                   frequency := 1,
                   lastClock := false,
                   pins := [{ name := "in0",
                              ptype := PinType.input,
                              sig := { state := SigState.high, bitWidth := 1, value := 1 } },
                            { name := "out",
                              ptype := PinType.output,
                              sig := { state := SigState.low, bitWidth := 1, value := 0 } }] },
                 { id := "comp_4",
                   kind := CompKind.andGate,
                   label := "AND1",
                   numInputs := 2,
                   state := false,
                   tickCount := 0,
                   frequency := 1,
                   lastClock := false,
                   pins := [{ name := "in0",
                              ptype := PinType.input,
                              sig := { state := SigState.high, bitWidth := 1, value := 1 } },
                            { name := "in1",
                              ptype := PinType.input,
                              sig := { state := SigState.high, bitWidth := 1, value := 1 } },
                            { name := "out",
                              ptype := PinType.output,
                              sig := { state := SigState.high, bitWidth := 1, value := 1 } }] },
                 { id := "comp_5",
                   kind := CompKind.led,
                   label := "Output",
                   numInputs := 0,
                   state := false,
                   tickCount := 0,
                   frequency := 1,
                   lastClock := false,
                   pins := [{ name := "in",
                              ptype := PinType.input,
                              sig := { state := SigState.high, bitWidth := 1, value := 1 } }] }],
  wires := [{ id := "wire_0",
              startRef := { comp := "comp_0", pin := "out" },
              endRef := { comp := "comp_2", pin := "in0" },
              sig := { state := SigState.high, bitWidth := 1, value := 1 } },
            { id := "wire_1",
              startRef := { comp := "comp_1", pin := "out" },
              endRef := { comp := "comp_3", pin := "in0" },
              sig := { state := SigState.high, bitWidth := 1, value := 1 } },
            { id := "wire_2",
              startRef := { comp := "comp_0", pin := "out" },
              endRef := { comp := "comp_4", pin := "in0" },
              sig := { state := SigState.high, bitWidth := 1, value := 1 } },
            { id := "wire_3",
              startRef := { comp := "comp_1", pin := "out" },
              endRef := { comp := "comp_4", pin := "in1" },
              sig := { state := SigState.high, bitWidth := 1, value := 1 } },
            { id := "wire_4",
              startRef := { comp := "comp_4", pin := "out" },
              endRef := { comp := "comp_5", pin := "in" },
              sig := { state := SigState.high, bitWidth := 1, value := 1 } }],
  nextCompId := 6,
  nextWireId := 5 }

/-- Fixed point of step 2: the LED has latched lit = true (computed
value). -/
def c6s4 : CircuitC :=
{ components := [{ id := "comp_0",
                   kind := CompKind.switch,
                   label := "A",
                   numInputs := 0,
                   state := true,
                   tickCount := 0,
                   frequency := 1,
                   lastClock := false,
                   pins := [{ name := "out",
                              ptype := PinType.output,
                              sig := { state := SigState.high, bitWidth := 1, value := 1 } }] },
                 { id := "comp_1",
                   kind := CompKind.switch,
                   label := "B",
                   numInputs := 0,
                   state := true,
                   tickCount := 0,
                   frequency := 1,
                   lastClock := false,
                   pins := [{ name := "out",
                              ptype := PinType.output,
                              sig := { state := SigState.high, bitWidth := 1, value := 1 } }] },
                 { id := "comp_2",
                   kind := CompKind.notGate,
                   label := "NOT_A",
                   numInputs := 1,
                   state := false,
                   tickCount := 0,
                   frequency := 1,
                   lastClock := false,
                   pins := [{ name := "in0",
                              ptype := PinType.input,
                              sig := { state := SigState.high, bitWidth := 1, value := 1 } },
                            { name := "out",
                              ptype := PinType.output,
                              sig := { state := SigState.low, bitWidth := 1, value := 0 } }] },
                 { id := "comp_3",
                   kind := CompKind.notGate,
                   label := "NOT_B",
                   numInputs := 1,
                   state := false,
                   tickCount := 0,
                   frequency := 1,
                   lastClock := false,
                   pins := [{ name := "in0",
                              ptype := PinType.input,
                              sig := { state := SigState.high, bitWidth := 1, value := 1 } },
                            { name := "out",
                              ptype := PinType.output,
                              sig := { state := SigState.low, bitWidth := 1, value := 0 } }] },
                 { id := "comp_4",
                   kind := CompKind.andGate,
                   label := "AND1",
                   numInputs := 2,
                   state := false,
                   tickCount := 0,
                   frequency := 1,
                   lastClock := false,
                   pins := [{ name := "in0",
                              ptype := PinType.input,
                              sig := { state := SigState.high, bitWidth := 1, value := 1 } },
                            { name := "in1",
                              ptype := PinType.input,
                              sig := { state := SigState.high, bitWidth := 1, value := 1 } },
                            { name := "out",
                              ptype := PinType.output,
                              sig := { state := SigState.high, bitWidth := 1, value := 1 } }] },
                 { id := "comp_5",
                   kind := CompKind.led,
                   label := "Output",
                   numInputs := 0,
                   state := true,
                   tickCount := 0,
                   frequency := 1,
                   lastClock := false,
                   pins := [{ name := "in",
                              ptype := PinType.input,
                              sig := { state := SigState.high, bitWidth := 1, value := 1 } }] }],
  wires := [{ id := "wire_0",
              startRef := { comp := "comp_0", pin := "out" },
              endRef := { comp := "comp_2", pin := "in0" },
              sig := { state := SigState.high, bitWidth := 1, value := 1 } },
            { id := "wire_1",
              startRef := { comp := "comp_1", pin := "out" },
              endRef := { comp := "comp_3", pin := "in0" },
              sig := { state := SigState.high, bitWidth := 1, value := 1 } },
            { id := "wire_2",
              startRef := { comp := "comp_0", pin := "out" },
              endRef := { comp := "comp_4", pin := "in0" },
              sig := { state := SigState.high, bitWidth := 1, value := 1 } },
            { id := "wire_3",
              startRef := { comp := "comp_1", pin := "out" },
              endRef := { comp := "comp_4", pin := "in1" },
              sig := { state := SigState.high, bitWidth := 1, value := 1 } },
            { id := "wire_4",
              startRef := { comp := "comp_4", pin := "out" },
              endRef := { comp := "comp_5", pin := "in" },
              sig := { state := SigState.high, bitWidth := 1, value := 1 } }],
  nextCompId := 6,
  nextWireId := 5 }

/-- What C6 asserts of synthesizing the PDNF `(A&B)` over `[A, B]`: the build
succeeds producing exactly two Switches (one per variable), two NOT gates
(each wired from its variable switch), one AND gate wired from the two switch
outputs, and one LED wired from the AND output; after setting both switches
true, two `step()` calls (any positive iteration bound) light the LED; and in
general `_create_term_and_gate` wires only the first two literals of a term,
adding at most two wires. -/
def C6Spec (maxIterations : Nat) : Prop :=
  buildFromPdnf {} "(A&B)" ["A", "B"] = some c6built ∧
  c6built.components.map (fun x => (x.id, x.kind, x.label)) =
    [("comp_0", CompKind.switch, "A"), ("comp_1", CompKind.switch, "B"),
     ("comp_2", CompKind.notGate, "NOT_A"), ("comp_3", CompKind.notGate, "NOT_B"),
     ("comp_4", CompKind.andGate, "AND1"), ("comp_5", CompKind.led, "Output")] ∧
  c6built.wires.map
      (fun w => (w.id, w.startRef.comp, w.startRef.pin, w.endRef.comp, w.endRef.pin)) =
    [("wire_0", "comp_0", "out", "comp_2", "in0"),
     ("wire_1", "comp_1", "out", "comp_3", "in0"),
     ("wire_2", "comp_0", "out", "comp_4", "in0"),
     ("wire_3", "comp_1", "out", "comp_4", "in1"),
     ("wire_4", "comp_4", "out", "comp_5", "in")] ∧
  ledLit ((stepEngine maxIterations
    (stepEngine maxIterations { circuit := c6ready }).1).1.circuit) = true ∧
  (∀ (c : CircuitC) (term : List (String × Bool)) (sw ng : List (String × String)) (i : Nat),
    createTermAndGate c term sw ng i = createTermAndGate c (term.take 2) sw ng i) ∧
  (∀ (c : CircuitC) (term : List (String × Bool)) (sw ng : List (String × String))
    (i : Nat) (r : CircuitC × String),
    createTermAndGate c term sw ng i = some r → r.1.wires.length ≤ c.wires.length + 2)

/-! ## Lemmas and claim theorems -/

lemma calculatePdnf_eq_render (tt : TruthTable) :
    calculatePdnf tt = renderDnf (pdnfTermsOf tt) := by
  simp only [calculatePdnf, renderDnf, pdnfTermsOf, mintermLiterals, renderLit,
    List.map_map, List.isEmpty_iff, List.map_eq_nil_iff]
  rfl

lemma calculatePcnf_eq_render (tt : TruthTable) :
    calculatePcnf tt = renderCnf (pcnfClausesOf tt) := by
  simp only [calculatePcnf, renderCnf, pcnfClausesOf, maxtermLiterals, renderLit,
    List.map_map, List.isEmpty_iff, List.map_eq_nil_iff]
  split
  · rfl
  · refine congrArg (String.intercalate " & ") (List.map_congr_left ?_)
    intro r _
    refine congrArg (fun s => "(" ++ String.intercalate "|" s ++ ")") ?_
    rw [List.map_map]
    refine List.map_congr_left ?_
    intro p _
    cases hp : p.2 <;> simp [renderLit, hp, Function.comp]

lemma mem_genRows_length {n : Nat} {a : List Bool} (h : a ∈ genRows n) : a.length = n := by
  induction n generalizing a with
  | zero => simp [genRows] at h; simp [h]
  | succ n ih =>
    simp only [genRows, List.mem_append, List.mem_map] at h
    rcases h with ⟨t, ht, rfl⟩ | ⟨t, ht, rfl⟩ <;> simp [ih ht]

lemma lookup_cons_ne {u v : String} {x : Bool} {env : List (String × Bool)} (h : u ≠ v) :
    List.lookup u ((v, x) :: env) = List.lookup u env := by
  simp [List.lookup, beq_false_of_ne h]

lemma all_evalLit_extend {v : String} {x : Bool} {env : List (String × Bool)}
    {l : List (String × Bool)} (h : ∀ p ∈ l, p.1 ≠ v) :
    l.all (evalLit ((v, x) :: env)) = l.all (evalLit env) := by
  induction l with
  | nil => rfl
  | cons q l ih =>
    have hq : q.1 ≠ v := h q (List.mem_cons_self q l)
    have hrest : ∀ p ∈ l, p.1 ≠ v := fun p hp => h p (List.mem_cons_of_mem q hp)
    simp only [List.all_cons, ih hrest, evalLit, lookup_cons_ne hq]

lemma any_evalLit_extend {v : String} {x : Bool} {env : List (String × Bool)}
    {l : List (String × Bool)} (h : ∀ p ∈ l, p.1 ≠ v) :
    l.any (evalLit ((v, x) :: env)) = l.any (evalLit env) := by
  induction l with
  | nil => rfl
  | cons q l ih =>
    have hq : q.1 ≠ v := h q (List.mem_cons_self q l)
    have hrest : ∀ p ∈ l, p.1 ≠ v := fun p hp => h p (List.mem_cons_of_mem q hp)
    simp only [List.any_cons, ih hrest, evalLit, lookup_cons_ne hq]

/-- A PDNF term built from row `b` holds under the environment of row `a`
exactly when the two assignments coincide. -/
lemma term_match {vars : List String} (hnd : vars.Nodup) :
    ∀ a b : List Bool, a.length = vars.length → b.length = vars.length →
      ((vars.zip b).all (evalLit (vars.zip a)) = true ↔ a = b) := by
  induction vars with
  | nil =>
    intro a b ha hb
    simp only [List.length_nil] at ha hb
    rw [List.length_eq_zero] at ha hb
    subst ha; subst hb; simp
  | cons v vs ih =>
    intro a b ha hb
    match a, b with
    | x :: xs, y :: ys =>
      simp only [List.length_cons, Nat.succ.injEq] at ha hb
      have hnotmem : v ∉ vs := (List.nodup_cons.mp hnd).1
      have hnd' : vs.Nodup := (List.nodup_cons.mp hnd).2
      have hfst : ∀ p ∈ vs.zip ys, p.1 ≠ v := by
        intro p hp hpv
        exact hnotmem (hpv ▸ (List.of_mem_zip hp).1)
      simp only [List.zip_cons_cons, List.all_cons]
      rw [all_evalLit_extend hfst]
      have hlit : evalLit ((v, x) :: vs.zip xs) (v, y) = (x == y) := by
        simp [evalLit, List.lookup]
      rw [hlit]
      constructor
      · intro hall
        have h1 := (Bool.and_eq_true _ _).mp hall
        have hxy : x = y := by simpa using h1.1
        have hxs : xs = ys := (ih hnd' xs ys ha hb).mp h1.2
        rw [hxy, hxs]
      · intro heq
        obtain ⟨rfl, rfl⟩ : x = y ∧ xs = ys := by simpa using heq
        refine (Bool.and_eq_true _ _).mpr ⟨by simp, (ih hnd' xs xs ha hb).mpr rfl⟩

/-- A PCNF clause built from row `b` holds under the environment of row `a`
exactly when the two assignments differ. -/
lemma clause_mismatch {vars : List String} (hnd : vars.Nodup) :
    ∀ a b : List Bool, a.length = vars.length → b.length = vars.length →
      (((vars.zip b).map (fun p => (p.1, !p.2))).any (evalLit (vars.zip a)) = true ↔ a ≠ b) := by
  induction vars with
  | nil =>
    intro a b ha hb
    simp only [List.length_nil] at ha hb
    rw [List.length_eq_zero] at ha hb
    subst ha; subst hb; simp
  | cons v vs ih =>
    intro a b ha hb
    match a, b with
    | x :: xs, y :: ys =>
      simp only [List.length_cons, Nat.succ.injEq] at ha hb
      have hnotmem : v ∉ vs := (List.nodup_cons.mp hnd).1
      have hnd' : vs.Nodup := (List.nodup_cons.mp hnd).2
      have hfst : ∀ p ∈ (vs.zip ys).map (fun p => (p.1, !p.2)), p.1 ≠ v := by
        intro p hp hpv
        obtain ⟨q, hq, rfl⟩ := List.mem_map.mp hp
        exact hnotmem (hpv ▸ (List.of_mem_zip hq).1)
      simp only [List.zip_cons_cons, List.map_cons, List.any_cons]
      rw [any_evalLit_extend hfst]
      have hlit : evalLit ((v, x) :: vs.zip xs) (v, !y) = (x == !y) := by
        simp [evalLit, List.lookup]
      rw [hlit]
      constructor
      · intro hor heq
        obtain ⟨rfl, rfl⟩ : x = y ∧ xs = ys := by simpa using heq
        rcases (Bool.or_eq_true _ _).mp hor with h1 | h2
        · exact absurd (eq_of_beq h1) (by cases x <;> decide)
        · exact (ih hnd' xs xs ha hb).mp h2 rfl
      · intro hne
        by_cases hxy : x = y
        · have hxsys : xs ≠ ys := fun hcon => hne (by rw [hxy, hcon])
          exact (Bool.or_eq_true _ _).mpr (Or.inr ((ih hnd' xs ys ha hb).mpr hxsys))
        · refine (Bool.or_eq_true _ _).mpr (Or.inl ?_)
          cases x <;> cases y <;> first | rfl | exact absurd rfl hxy

/-- Evaluating the PDNF of a generated truth table at the environment of any
enumerated assignment returns the function value there. -/
lemma evalDnf_pdnf (vars : List String) (f : List Bool → Bool) (hnd : vars.Nodup)
    (a : List Bool) (ha : a ∈ genRows vars.length) :
    evalDnf (pdnfTermsOf (generateTruthTable vars f)) (vars.zip a) = f a := by
  have hal : a.length = vars.length := mem_genRows_length ha
  unfold evalDnf
  cases hfa : f a with
  | true =>
    apply List.any_eq_true.mpr
    refine ⟨vars.zip a, ?_, (term_match hnd a a hal hal).mpr rfl⟩
    unfold pdnfTermsOf generateTruthTable
    refine List.mem_map.mpr ⟨(a, f a), ?_, rfl⟩
    exact List.mem_filter.mpr ⟨List.mem_map.mpr ⟨a, ha, rfl⟩, by simpa using hfa⟩
  | false =>
    apply List.any_eq_false.mpr
    intro t ht
    unfold pdnfTermsOf generateTruthTable at ht
    obtain ⟨r, hr, rfl⟩ := List.mem_map.mp ht
    have hrf := List.mem_filter.mp hr
    obtain ⟨b, hbgen, rfl⟩ := List.mem_map.mp hrf.1
    have hfb : f b = true := by simpa using hrf.2
    have hbl : b.length = vars.length := mem_genRows_length hbgen
    intro hall
    have hab : a = b := (term_match hnd a b hal hbl).mp hall
    rw [hab, hfb] at hfa
    exact absurd hfa (by decide)

/-- Evaluating the PCNF of a generated truth table at the environment of any
enumerated assignment returns the function value there. -/
lemma evalCnf_pcnf (vars : List String) (f : List Bool → Bool) (hnd : vars.Nodup)
    (a : List Bool) (ha : a ∈ genRows vars.length) :
    evalCnf (pcnfClausesOf (generateTruthTable vars f)) (vars.zip a) = f a := by
  have hal : a.length = vars.length := mem_genRows_length ha
  unfold evalCnf
  cases hfa : f a with
  | true =>
    apply List.all_eq_true.mpr
    intro c hc
    unfold pcnfClausesOf generateTruthTable at hc
    obtain ⟨r, hr, rfl⟩ := List.mem_map.mp hc
    have hrf := List.mem_filter.mp hr
    obtain ⟨b, hbgen, rfl⟩ := List.mem_map.mp hrf.1
    have hfb : f b = false := by simpa using hrf.2
    have hbl : b.length = vars.length := mem_genRows_length hbgen
    refine (clause_mismatch hnd a b hal hbl).mpr ?_
    intro hcon
    rw [hcon, hfb] at hfa
    exact absurd hfa (by decide)
  | false =>
    apply List.all_eq_false.mpr
    refine ⟨(vars.zip a).map (fun p => (p.1, !p.2)), ?_, ?_⟩
    · unfold pcnfClausesOf generateTruthTable
      refine List.mem_map.mpr ⟨(a, f a), ?_, rfl⟩
      exact List.mem_filter.mpr ⟨List.mem_map.mpr ⟨a, ha, rfl⟩, by simpa using hfa⟩
    · cases hany : ((vars.zip a).map (fun p => (p.1, !p.2))).any (evalLit (vars.zip a)) with
      | false => simp [hany]
      | true => exact absurd ((clause_mismatch hnd a a hal hal).mp hany) (by simp)

/-- C1: the claim asserts that the Zhegalkin polynomial reproduces the truth
table of every expression and that for `A&B` the returned string is `A&B`.
The source triangle only runs `len(variables)` reduction steps, so for `A&B`
(outputs 0,0,0,1) only the coefficients of monomial indices 0, 1, 2 are ever
extracted and all are 0: the code returns the string `0`, a constant-false
polynomial that disagrees with the table at row (T,T).  This theorem
evaluates the embedded code at that failing input. -/
theorem C1_zhegalkin_at_AB :
    calculateZhegalkin ttAB = "0" ∧
    calculateZhegalkin ttAB ≠ "A&B" ∧
    ttAB.rows.map (fun r => r.2) = [false, false, false, true] := by decide

/-- C5: for every boolean expression, modelled by its variable list (nonempty,
duplicate-free, as `_extract_variables` produces) and its denotation `f`,
re-evaluating the generated PDNF and PCNF strings as fresh expressions over
the same variable set reproduces the original truth table row for row. -/
theorem C5_pdnf_pcnf_roundtrip (vars : List String) (f : List Bool → Bool)
    (_hne : vars ≠ []) (hnd : vars.Nodup) :
    ∀ r ∈ (generateTruthTable vars f).rows,
      evalDnf (pdnfTermsOf (generateTruthTable vars f)) (vars.zip r.1) = r.2 ∧
      evalCnf (pcnfClausesOf (generateTruthTable vars f)) (vars.zip r.1) = r.2 := by
  intro r hr
  have hr' : r ∈ (genRows vars.length).map (fun a => (a, f a)) := hr
  obtain ⟨a, ha, rfl⟩ := List.mem_map.mp hr'
  exact ⟨evalDnf_pdnf vars f hnd a ha, evalCnf_pcnf vars f hnd a ha⟩

/-- Witness for C5: the concrete expression `A&B`, at the row (T,T). -/
theorem C5_pdnf_pcnf_roundtrip_witness :
    evalDnf (pdnfTermsOf (generateTruthTable ["A", "B"] andFn))
        (["A", "B"].zip [true, true]) = true ∧
    evalCnf (pcnfClausesOf (generateTruthTable ["A", "B"] andFn))
        (["A", "B"].zip [true, true]) = true :=
  C5_pdnf_pcnf_roundtrip ["A", "B"] andFn (by decide) (by decide)
    ([true, true], true) (by decide)

/-- C7 counterexample: the claim names the PCNF of `A&B` as the exact string
`(A|B)&(A|!B)&(!A|B)`, but `calculate_pcnf` joins clauses with `" & "`
(spaces included), so the produced string differs. -/
theorem C7_pcnf_exact_string_counterexample :
    calculatePcnf ttAB ≠ "(A|B)&(A|!B)&(!A|B)" := by decide

/-- C7 (amended): the generated strings follow the claimed shape with the
separators `" | "` and `" & "` of the source; for `A&B` the PDNF is `(A&B)`
and the PCNF is `(A|B) & (A|!B) & (!A|B)`. -/
theorem C7_normal_form_strings :
    (∀ tt : TruthTable, calculatePdnf tt = pdnfClaimString tt) ∧
    (∀ tt : TruthTable, calculatePcnf tt = pcnfClaimString tt) ∧
    calculatePdnf ttAB = "(A&B)" ∧
    calculatePcnf ttAB = "(A|B) & (A|!B) & (!A|B)" :=
  ⟨fun _ => rfl, fun _ => rfl, by decide, by decide⟩

/-- C8: the claim asserts every listed operator spelling normalizes to its
canonical token, in particular every EQUIVALENCE spelling.  Evaluating the
embedded `_normalize` at the failing spellings: `=` is never rewritten (only
multi-character EQUIVALENCE spellings are), `<->` and `<=>` are first mangled
by the IMPLICATION replacements of `->`/`=>` into `<→`, and `xor`, `nand`,
`nor` (and their uppercase forms) are clobbered by the earlier `or`/`and`
replacements; evaluation of the resulting strings then fails instead of
computing the operator.  The canonical spellings `eq`, `EQ` and `≡` do reach
`≡`, shown for contrast. -/
theorem C8_normalize_at_failing_spellings :
    bNormalize "A = B" = "A = B" ∧
    bNormalize "A <-> B" = "A <→ B" ∧
    bNormalize "A <=> B" = "A <→ B" ∧
    bNormalize "A xor B" = "A x| B" ∧
    bNormalize "A XOR B" = "A X| B" ∧
    bNormalize "A nand B" = "A n& B" ∧
    bNormalize "A nor B" = "A n| B" ∧
    bNormalize "A eq B" = "A ≡ B" ∧
    bNormalize "A ≡ B" = "A ≡ B" := by decide

/-- C2 counterexample: a wire whose endpoints are both OUTPUT-typed is not
propagated as a no-op — the start endpoint wins and overwrites the end
endpoint (here HIGH over LOW) and the cached wire signal. -/
theorem C2_both_output_counterexample :
    wirePropagate { startType := .output, startSig := Signal.fromBool true,
                    endType := .output, endSig := Signal.fromBool false, sig := {} } ≠
      { startType := .output, startSig := Signal.fromBool true,
        endType := .output, endSig := Signal.fromBool false, sig := {} } := by
  decide

/-- C2 (amended): one propagation copies the start endpoint signal to the end
endpoint (and the wire cache) whenever the start endpoint is OUTPUT-typed,
regardless of the end endpoint type; otherwise it copies the end endpoint
signal to the start endpoint when the end endpoint is OUTPUT-typed; when
neither endpoint is OUTPUT it is a no-op leaving both pin signals and the
cached wire signal unchanged. -/
theorem C2_wire_propagate_characterization (st : WireSt) :
    (st.startType = .output →
      wirePropagate st = { st with sig := st.startSig, endSig := st.startSig }) ∧
    (st.startType ≠ .output → st.endType = .output →
      wirePropagate st = { st with sig := st.endSig, startSig := st.endSig }) ∧
    (st.startType ≠ .output → st.endType ≠ .output → wirePropagate st = st) := by
  refine ⟨fun h => by simp [wirePropagate, h], fun h1 h2 => by simp [wirePropagate, h1, h2],
    fun h1 h2 => by simp [wirePropagate, h1, h2]⟩

/-- Witness for C2 (amended): a concrete OUTPUT→INPUT wire copies the HIGH
start signal to the end pin and the cache. -/
theorem C2_wire_propagate_characterization_witness :
    wirePropagate { startType := .output, startSig := Signal.fromBool true,
                    endType := .input, endSig := {}, sig := {} } =
      { startType := .output, startSig := Signal.fromBool true,
        endType := .input, endSig := Signal.fromBool true, sig := Signal.fromBool true } :=
  (C2_wire_propagate_characterization _).1 rfl

/-- C4 counterexample: `add_wire` validates nothing, so adding a wire whose
endpoint pins belong to no present component moves the empty circuit (which
satisfies the invariant) into a state violating it. -/
theorem C4_addwire_counterexample :
    WireInv {} ∧ ¬ WireInv (addWire {} ghostWire).1 := by decide

lemma addComponent_cases (c : CircuitC) (comp0 : Comp) :
    ∃ comp : Comp, (addComponent c comp0).1.wires = c.wires ∧
      (addComponent c comp0).1.components =
        (if c.components.any (fun y => y.id == comp.id) then
          c.components.map (fun x => if x.id == comp.id then comp else x)
        else c.components ++ [comp]) :=
  ⟨if comp0.id == "" then { comp0 with id := "comp_" ++ toString c.nextCompId } else comp0,
    rfl, rfl⟩

lemma addWire_cases (c : CircuitC) (w0 : WireC) :
    ∃ w : WireC, w.startRef = w0.startRef ∧ w.endRef = w0.endRef ∧
      (addWire c w0).1.components = c.components ∧
      (addWire c w0).1.wires =
        (if c.wires.any (fun x => x.id == w.id) then
          c.wires.map (fun x => if x.id == w.id then w else x)
        else c.wires ++ [w]) := by
  refine ⟨if w0.id == "" then { w0 with id := "wire_" ++ toString c.nextWireId } else w0,
    ?_, ?_, rfl, rfl⟩ <;> split <;> rfl

lemma removeComponent_present (c : CircuitC) (cid : String)
    (h : c.components.any (fun x => x.id == cid) = true) :
    removeComponent c cid =
      { c with
        components := c.components.filter (fun x => x.id != cid),
        wires := c.wires.filter (fun w => !(w.startRef.comp == cid || w.endRef.comp == cid)) } := by
  unfold removeComponent
  rw [if_pos h]

lemma removeComponent_absent (c : CircuitC) (cid : String)
    (h : ¬ c.components.any (fun x => x.id == cid) = true) : removeComponent c cid = c := by
  unfold removeComponent
  rw [if_neg h]

lemma removeWire_present (c : CircuitC) (wid : String)
    (h : c.wires.any (fun x => x.id == wid) = true) :
    removeWire c wid = { c with wires := c.wires.filter (fun x => x.id != wid) } := by
  unfold removeWire
  rw [if_pos h]

lemma removeWire_absent (c : CircuitC) (wid : String)
    (h : ¬ c.wires.any (fun x => x.id == wid) = true) : removeWire c wid = c := by
  unfold removeWire
  rw [if_neg h]

lemma compPresent_addComponent (c : CircuitC) (comp0 : Comp) (cid : String)
    (h : compPresent c cid) : compPresent (addComponent c comp0).1 cid := by
  obtain ⟨x, hx, rfl⟩ := h
  obtain ⟨comp, -, hcomps⟩ := addComponent_cases c comp0
  unfold compPresent
  rw [hcomps]
  split
  · refine ⟨if x.id == comp.id then comp else x, List.mem_map_of_mem _ hx, ?_⟩
    split
    · next hbeq => exact (eq_of_beq hbeq).symm
    · rfl
  · exact ⟨x, List.mem_append_left _ hx, rfl⟩

/-- C4 (amended): the invariant — every pin referenced by any wire belongs to
a component currently present — is preserved by `add_component`,
`remove_component` and `remove_wire` unconditionally, and by `add_wire`
whenever the added wire refers to present components (`add_wire` itself
validates nothing, as the counterexample shows); removing a present component
removes every wire touching any of its pins, so afterwards no wire touches
the removed id; removing an unknown component id or unknown wire id is a
silent no-op that leaves the circuit unchanged. -/
theorem C4_circuit_invariant (c : CircuitC) (hinv : WireInv c) :
    (∀ comp : Comp, WireInv (addComponent c comp).1) ∧
    (∀ w : WireC, compPresent c w.startRef.comp → compPresent c w.endRef.comp →
      WireInv (addWire c w).1) ∧
    (∀ cid : String, WireInv (removeComponent c cid)) ∧
    (∀ wid : String, WireInv (removeWire c wid)) ∧
    (∀ cid : String, ∀ w ∈ (removeComponent c cid).wires,
      w.startRef.comp ≠ cid ∧ w.endRef.comp ≠ cid) ∧
    (∀ cid : String, ¬ compPresent c cid → removeComponent c cid = c) ∧
    (∀ wid : String, (∀ w ∈ c.wires, w.id ≠ wid) → removeWire c wid = c) := by
  refine ⟨?_, ?_, ?_, ?_, ?_, ?_, ?_⟩
  · -- add_component leaves the wires untouched and no present id disappears
    intro comp0 w hw
    obtain ⟨comp, hwires, -⟩ := addComponent_cases c comp0
    rw [WireInv, hwires] at *
    exact ⟨compPresent_addComponent c comp0 _ (hinv w hw).1,
      compPresent_addComponent c comp0 _ (hinv w hw).2⟩
  · -- add_wire, provided the new endpoints refer to present components
    intro w0 hs he w2 hw2
    obtain ⟨w, hst, hen, hcomps, hwires⟩ := addWire_cases c w0
    have hpres : ∀ cid, compPresent c cid → compPresent (addWire c w0).1 cid := by
      intro cid hp
      obtain ⟨x, hx, rfl⟩ := hp
      exact ⟨x, by rw [hcomps]; exact hx, rfl⟩
    rw [hwires] at hw2
    have hw2' : w2 ∈ c.wires ∨ w2 = w := by
      revert hw2
      split
      · intro hw2
        obtain ⟨x, hx, rfl⟩ := List.mem_map.mp hw2
        split
        · exact Or.inr rfl
        · exact Or.inl hx
      · intro hw2
        rcases List.mem_append.mp hw2 with hx | hx
        · exact Or.inl hx
        · exact Or.inr (List.mem_singleton.mp hx)
    rcases hw2' with hx | rfl
    · exact ⟨hpres _ (hinv w2 hx).1, hpres _ (hinv w2 hx).2⟩
    · exact ⟨hpres _ (hst ▸ hs), hpres _ (hen ▸ he)⟩
  · -- remove_component preserves the invariant
    intro cid w hw
    by_cases hany : c.components.any (fun x => x.id == cid) = true
    · rw [removeComponent_present c cid hany] at hw ⊢
      have hmem := List.mem_filter.mp hw
      have hcond : ¬(w.startRef.comp = cid ∨ w.endRef.comp = cid) := by
        simpa using hmem.2
      obtain ⟨h1, h2⟩ := hinv w hmem.1
      constructor
      · obtain ⟨x, hx, hxid⟩ := h1
        refine ⟨x, List.mem_filter.mpr ⟨hx, ?_⟩, hxid⟩
        simpa using fun hcon => hcond (Or.inl (hxid.symm.trans hcon))
      · obtain ⟨x, hx, hxid⟩ := h2
        refine ⟨x, List.mem_filter.mpr ⟨hx, ?_⟩, hxid⟩
        simpa using fun hcon => hcond (Or.inr (hxid.symm.trans hcon))
    · rw [removeComponent_absent c cid hany] at hw ⊢
      exact hinv w hw
  · -- remove_wire preserves the invariant
    intro wid w hw
    by_cases hany : c.wires.any (fun x => x.id == wid) = true
    · rw [removeWire_present c wid hany] at hw ⊢
      exact hinv w (List.mem_filter.mp hw).1
    · rw [removeWire_absent c wid hany] at hw ⊢
      exact hinv w hw
  · -- cascade: afterwards no wire touches the removed id
    intro cid w hw
    by_cases hany : c.components.any (fun x => x.id == cid) = true
    · rw [removeComponent_present c cid hany] at hw
      have hmem := List.mem_filter.mp hw
      have hcond : ¬(w.startRef.comp = cid ∨ w.endRef.comp = cid) := by
        simpa using hmem.2
      exact ⟨fun hcon => hcond (Or.inl hcon), fun hcon => hcond (Or.inr hcon)⟩
    · rw [removeComponent_absent c cid hany] at hw
      obtain ⟨h1, h2⟩ := hinv w hw
      constructor
      · intro hcon
        obtain ⟨x, hx, hxid⟩ := h1
        exact hany (List.any_eq_true.mpr ⟨x, hx, by simp [hxid, hcon]⟩)
      · intro hcon
        obtain ⟨x, hx, hxid⟩ := h2
        exact hany (List.any_eq_true.mpr ⟨x, hx, by simp [hxid, hcon]⟩)
  · -- unknown component id: silent no-op
    intro cid hnp
    refine removeComponent_absent c cid ?_
    intro hany
    obtain ⟨x, hx, hxid⟩ := List.any_eq_true.mp hany
    exact hnp ⟨x, hx, by simpa using hxid⟩
  · -- unknown wire id: silent no-op
    intro wid hnw
    refine removeWire_absent c wid ?_
    intro hany
    obtain ⟨x, hx, hxid⟩ := List.any_eq_true.mp hany
    exact hnw x hx (by simpa using hxid)

/-- Witness for C4: on the concrete circuit, removing the switch removes the
wire that touched it, and removing unknown ids is the identity. -/
theorem C4_circuit_invariant_witness :
    WireInv (removeComponent c4Example "comp_0") ∧
    (∀ w ∈ (removeComponent c4Example "comp_0").wires,
      w.startRef.comp ≠ "comp_0" ∧ w.endRef.comp ≠ "comp_0") ∧
    removeComponent c4Example "nothere" = c4Example ∧
    removeWire c4Example "nothere" = c4Example :=
  ⟨(C4_circuit_invariant c4Example (by decide)).2.2.1 "comp_0",
   (C4_circuit_invariant c4Example (by decide)).2.2.2.2.1 "comp_0",
   (C4_circuit_invariant c4Example (by decide)).2.2.2.2.2.1 "nothere" (by decide),
   (C4_circuit_invariant c4Example (by decide)).2.2.2.2.2.2 "nothere" (by decide)⟩

/-- C9: `reset()` clears the tick count and per-step bookkeeping and sets
every pin and wire signal to UNKNOWN, leaving all component-internal memory
(switch state, button pressed, LED lit, clock state and counter, flip-flop
stored bit and sampled clock level) unchanged. -/
theorem C9_reset_spec (e : Engine) : ResetSpec e := by
  refine ⟨rfl, rfl, ?_, ?_, by simp [resetEngine], ?_⟩
  · intro comp hcomp p hp
    obtain ⟨c0, -, rfl⟩ := List.mem_map.mp hcomp
    obtain ⟨p0, -, rfl⟩ := List.mem_map.mp hp
    rfl
  · intro w hw
    obtain ⟨w0, -, rfl⟩ := List.mem_map.mp hw
    rfl
  · intro i comp comp' hget hget'
    have hmap : (resetEngine e).circuit.components.get? i =
        Option.map (fun comp => { comp with pins := comp.pins.map (fun p => { p with sig := {} }) })
          (e.circuit.components.get? i) := by
      simp [resetEngine, List.getElem?_map]
    rw [hmap, hget] at hget'
    obtain rfl : ({ comp with pins := comp.pins.map (fun p => { p with sig := {} }) } : Comp)
        = comp' := by
      simpa using hget'
    refine ⟨rfl, rfl, rfl, rfl, rfl, rfl, rfl, rfl, ?_⟩
    simp [List.map_map]

/-- Witness for C9: a concrete engine holding a D flip-flop with stored bit
true and a driven wire; after reset the signals are UNKNOWN, the stored bit
survives. -/
theorem C9_reset_spec_witness : ResetSpec
    { circuit :=
        { components := [{ mkDFlipFlop "d" "FF" with state := true, lastClock := true }],
          wires := [{ id := "w", startRef := { comp := "d", pin := "Q" },
                      endRef := { comp := "d", pin := "D" }, sig := Signal.fromBool true }] },
      tickCount := 7, evaluated := ["d"] } :=
  C9_reset_spec _

lemma iterPass_succ (j : Nat) (c : CircuitC) :
    iterPass (j + 1) c = iterPass j (evalPass c).1 := rfl

/-- Characterization of the `_evaluate_circuit` loop: starting with `fuel`
allowed iterations it runs some positive number `k ≤ fuel` of passes, the
result is the `k`-fold pass iterate and the counter advances by `k`; if it
stopped before exhausting the fuel the final pass was change-free, and every
pass before the final one produced a change. -/
lemma evalGo_spec (fuel : Nat) (hf : 1 ≤ fuel) (c : CircuitC) (iter : Nat) :
    ∃ k, 1 ≤ k ∧ k ≤ fuel ∧ evalGo fuel c iter = (iterPass k c, iter + k) ∧
      (k < fuel → (evalPass (iterPass (k - 1) c)).2 = false) ∧
      (∀ j, j + 1 < k → (evalPass (iterPass j c)).2 = true) := by
  induction fuel generalizing c iter with
  | zero => omega
  | succ f ih =>
    cases hch : (evalPass c).2 with
    | false =>
      refine ⟨1, Nat.le_refl 1, Nat.le_add_left 1 f, ?_, fun _ => hch, by omega⟩
      simp [evalGo, hch, iterPass]
    | true =>
      rcases Nat.eq_zero_or_pos f with rfl | hfpos
      · refine ⟨1, Nat.le_refl 1, by omega, ?_, by omega, by omega⟩
        simp [evalGo, hch, iterPass]
      · obtain ⟨k1, hk1, hk2, hgo, hstop, hchg⟩ := ih hfpos (evalPass c).1 (iter + 1)
        refine ⟨k1 + 1, by omega, by omega, ?_, ?_, ?_⟩
        · have hstep : evalGo (f + 1) c iter = evalGo f (evalPass c).1 (iter + 1) := by
            simp [evalGo, hch]
          rw [hstep, hgo, iterPass_succ]
          have harith : iter + 1 + k1 = iter + (k1 + 1) := by omega
          rw [harith]
        · intro hlt
          have := hstop (by omega)
          obtain ⟨k2, rfl⟩ : ∃ k2, k1 = k2 + 1 := ⟨k1 - 1, by omega⟩
          simpa [iterPass_succ] using this
        · intro j hj
          cases j with
          | zero => simpa [iterPass] using hch
          | succ j1 =>
            have := hchg j1 (by omega)
            simpa [iterPass_succ] using this

/-- C3: every `step()` call propagates once over all wires, evaluates all
components repeatedly in insertion order until a change-free pass or the
configured bound (bound hit = warning only, last values retained), then
propagates once more. -/
theorem C3_step_spec (maxIterations : Nat) (hmax : 1 ≤ maxIterations) (e : Engine) :
    StepSpec maxIterations e := by
  obtain ⟨k, hk1, hk2, hgo, hstop, hchg⟩ :=
    evalGo_spec maxIterations hmax (propagateAll e.circuit) 0
  refine ⟨k, hk1, hk2, ?_, hstop, hchg⟩
  simp only [stepEngine, evaluateCircuit, hgo, Nat.zero_add]

/-- Witness for C3 at a concrete engine and bound 3. -/
theorem C3_step_spec_witness : StepSpec 3 engineEx :=
  C3_step_spec 3 (by decide) engineEx

/-- C10 counterexample: this frequency-1 clock evaluation does not toggle the
output pin state — the internal state toggles False→True and the pin is
rewritten HIGH, equal to its previous value. -/
theorem C10_clock_counterexample :
    clockBad.kind = CompKind.clockGen ∧ clockBad.frequency = 1 ∧
    clockBad.state = false ∧ (evalComp clockBad).state = true ∧
    getPinD (evalComp clockBad) "out" = getPinD clockBad "out" := by decide

lemma evalComp_clock (comp : Comp) (h : ClockShape comp) :
    evalComp comp =
      { comp with
        tickCount := 0,
        state := !comp.state,
        pins := [outPin (Signal.fromBool (!comp.state))] } := by
  obtain ⟨hk, hf, s, hpins⟩ := h
  simp [evalComp, hk, hf, hpins, setPinSigC, outPin]

lemma clockShape_eval (comp : Comp) (h : ClockShape comp) : ClockShape (evalComp comp) := by
  rw [evalComp_clock comp h]
  exact ⟨h.1, h.2.1, Signal.fromBool (!comp.state), rfl⟩

lemma evalPass_components_get? (c : CircuitC) (i : Nat) (comp : Comp)
    (h : c.components.get? i = some comp) :
    (evalPass c).1.components.get? i = some (evalComp comp) := by
  simp only [evalPass, List.get?_eq_getElem?, List.getElem?_map]
  rw [List.get?_eq_getElem? ] at h
  simp [h]

lemma get?_zip_self_map (l : List Comp) (i : Nat) (comp : Comp)
    (h : l.get? i = some comp) :
    (l.zip (l.map evalComp)).get? i = some (comp, evalComp comp) := by
  induction l generalizing i with
  | nil => simp at h
  | cons x xs ih =>
    cases i with
    | zero => simp at h; simp [h]
    | succ i1 => simpa using ih i1 (by simpa using h)

lemma outputsChanged_clock (comp : Comp) (h : ClockShape comp)
    (hcons : comp.pins = [outPin (Signal.fromBool comp.state)]) :
    outputsChanged comp (evalComp comp) = true := by
  rw [evalComp_clock comp h]
  cases hst : comp.state <;>
    simp [outputsChanged, hcons, hst, Signal.fromBool, outPin]

lemma evalPass_changed_of_clock (c : CircuitC) (i : Nat) (comp : Comp)
    (hget : c.components.get? i = some comp) (h : ClockShape comp)
    (hcons : comp.pins = [outPin (Signal.fromBool comp.state)]) :
    (evalPass c).2 = true := by
  refine List.any_eq_true.mpr ⟨(comp, evalComp comp), ?_, outputsChanged_clock comp h hcons⟩
  exact List.get?_mem (get?_zip_self_map c.components i comp hget)

lemma iterPass_succ_right (j : Nat) (c : CircuitC) :
    iterPass (j + 1) c = (evalPass (iterPass j c)).1 := by
  induction j generalizing c with
  | zero => rfl
  | succ j1 ih =>
    rw [iterPass_succ, ih, iterPass_succ]

lemma iterPass_clockShape (c : CircuitC) (i : Nat) (comp : Comp)
    (hget : c.components.get? i = some comp) (h : ClockShape comp) :
    ∀ j : Nat, ∃ compj : Comp, (iterPass j c).components.get? i = some compj ∧
      ClockShape compj ∧
      (1 ≤ j → compj.pins = [outPin (Signal.fromBool compj.state)]) := by
  intro j
  induction j with
  | zero => exact ⟨comp, hget, h, by omega⟩
  | succ j1 ih =>
    obtain ⟨compj, hgetj, hshape, -⟩ := ih
    refine ⟨evalComp compj, ?_, clockShape_eval compj hshape, ?_⟩
    · rw [iterPass_succ_right]
      exact evalPass_components_get? _ i compj hgetj
    · intro _
      rw [evalComp_clock compj hshape]

/-- C10 (amended): a frequency-1 clock evaluation always toggles the internal
state and drives the output pin to the toggled state, and it changes the
output pin state whenever the pin agreed with the internal state beforehand
(which holds after every evaluation, but can fail on the very first pass if
the pin was driven externally — the counterexample); consequently, in any
circuit holding such a clock, the clock state toggles once per evaluation
pass of the fixed-point loop (not once per step), every pass after the first
changes an output pin, and the loop either stops after its very first pass or
runs the full iteration bound, the warning firing exactly in the latter
case. -/
theorem C10_clock_spec :
    (∀ comp : Comp, ClockShape comp →
      (evalComp comp).state = !comp.state ∧
      (evalComp comp).pins = [outPin (Signal.fromBool (!comp.state))] ∧
      (comp.pins = [outPin (Signal.fromBool comp.state)] →
        outputsChanged comp (evalComp comp) = true)) ∧
    (∀ (c : CircuitC) (i : Nat) (comp : Comp),
      c.components.get? i = some comp → ClockShape comp →
      ∀ (j : Nat) (compj compj1 : Comp),
        (iterPass j c).components.get? i = some compj →
        (iterPass (j + 1) c).components.get? i = some compj1 →
        compj1.state = !compj.state) ∧
    (∀ (maxIterations : Nat) (c : CircuitC) (i : Nat) (comp : Comp),
      1 ≤ maxIterations →
      c.components.get? i = some comp → ClockShape comp →
      ∃ k, 1 ≤ k ∧ k ≤ maxIterations ∧
        evaluateCircuit maxIterations c = (iterPass k c, k, decide (k = maxIterations)) ∧
        (k = 1 ∨ k = maxIterations)) := by
  refine ⟨?_, ?_, ?_⟩
  · intro comp h
    refine ⟨?_, ?_, fun hcons => outputsChanged_clock comp h hcons⟩
    · rw [evalComp_clock comp h]
    · rw [evalComp_clock comp h]
  · intro c i comp hget h j compj compj1 hgetj hgetj1
    obtain ⟨compj', hgetj', hshape', -⟩ := iterPass_clockShape c i comp hget h j
    have heq : compj' = compj := Option.some_injective _ (hgetj'.symm.trans hgetj)
    subst heq
    rw [iterPass_succ_right] at hgetj1
    have heq2 : evalComp compj' = compj1 :=
      Option.some_injective _ ((evalPass_components_get? _ i compj' hgetj').symm.trans hgetj1)
    subst heq2
    rw [evalComp_clock compj' hshape']
  · intro maxIterations c i comp hmax hget h
    obtain ⟨k, hk1, hk2, hgo, hstop, -⟩ := evalGo_spec maxIterations hmax c 0
    have hdec : decide (k ≥ maxIterations) = decide (k = maxIterations) := by
      simp only [decide_eq_decide]
      omega
    refine ⟨k, hk1, hk2, ?_, ?_⟩
    · simp only [evaluateCircuit, hgo, Nat.zero_add, hdec]
    · by_cases hkm : k = maxIterations
      · exact Or.inr hkm
      · left
        by_contra hk1ne
        have hk2' : 2 ≤ k := by omega
        have hklt : k < maxIterations := by omega
        have hfalse := hstop hklt
        obtain ⟨compj, hgetj, hshape, hcons⟩ := iterPass_clockShape c i comp hget h (k - 1)
        have hchanged := evalPass_changed_of_clock (iterPass (k - 1) c) i compj hgetj hshape
          (hcons (by omega))
        rw [hfalse] at hchanged
        exact absurd hchanged (by decide)

/-- Witness for C10 (amended): with bound 2, the loop over the clock circuit
runs some k ∈ {1, 2} passes with the warning exactly at the bound. -/
theorem C10_clock_spec_witness :
    ∃ k, 1 ≤ k ∧ k ≤ 2 ∧
      evaluateCircuit 2 clockCircuit = (iterPass k clockCircuit, k, decide (k = 2)) ∧
      (k = 1 ∨ k = 2) :=
  C10_clock_spec.2.2 2 clockCircuit 0 (mkClock "c" "CLK") (by decide) (by decide)
    ⟨rfl, rfl, {}, rfl⟩

lemma stepEngine_circuit (maxIterations : Nat) (e : Engine) :
    (stepEngine maxIterations e).1.circuit =
      propagateAll ((evalGo maxIterations (propagateAll e.circuit) 0).1) := rfl

lemma evalGo_stable_one (s s1 : CircuitC) (h : evalPass s = (s1, false)) :
    ∀ maxIterations : Nat, 1 ≤ maxIterations → (evalGo maxIterations s 0).1 = s1 := by
  intro m hm
  match m, hm with
  | m + 1, _ => simp [evalGo, h]

lemma evalGo_stable_two (s s1 : CircuitC) (h1 : evalPass s = (s1, true))
    (h2 : evalPass s1 = (s1, false)) :
    ∀ maxIterations : Nat, 1 ≤ maxIterations → (evalGo maxIterations s 0).1 = s1 := by
  intro m hm
  match m, hm with
  | 1, _ => simp [evalGo, h1]
  | m + 2, _ => simp [evalGo, h1, h2]

lemma addWire_wires_length (c : CircuitC) (w : WireC) :
    (addWire c w).1.wires.length ≤ c.wires.length + 1 := by
  obtain ⟨w2, -, -, -, hwires⟩ := addWire_cases c w
  rw [hwires]
  split
  · simp
  · simp

lemma wireLiteral_length (sw ng : List (String × String)) (gid : String)
    (st : CircuitC) (p : Nat × (String × Bool)) (c2 : CircuitC)
    (h : wireLiteral sw ng gid st p = some c2) :
    c2.wires.length ≤ st.wires.length + 1 := by
  unfold wireLiteral at h
  cases hl : List.lookup p.2.1 (if p.2.2 then sw else ng) with
  | none => rw [hl] at h; simp at h
  | some src =>
    rw [hl] at h
    have h3 := Option.some.inj h
    rw [← h3]
    split
    · exact addWire_wires_length st _
    · omega

lemma foldlM_wireLiteral_length (sw ng : List (String × String)) (gid : String) :
    ∀ (l : List (Nat × (String × Bool))) (st c2 : CircuitC),
      l.foldlM (wireLiteral sw ng gid) st = some c2 →
      c2.wires.length ≤ st.wires.length + l.length := by
  intro l
  induction l with
  | nil =>
    intro st c2 h
    have h3 := Option.some.inj h
    rw [← h3]
    simp
  | cons p l ih =>
    intro st c2 h
    rw [List.foldlM_cons] at h
    cases hw : wireLiteral sw ng gid st p with
    | none => rw [hw] at h; simp at h
    | some st2 =>
      rw [hw] at h
      have h4 : l.foldlM (wireLiteral sw ng gid) st2 = some c2 := h
      have h1 := wireLiteral_length sw ng gid st p st2 hw
      have h2 := ih st2 c2 h4
      simp only [List.length_cons]
      omega

lemma createTermAndGate_take_two (c : CircuitC) (term : List (String × Bool))
    (sw ng : List (String × String)) (i : Nat) :
    createTermAndGate c term sw ng i = createTermAndGate c (term.take 2) sw ng i := by
  simp [createTermAndGate, List.take_take]

lemma createTermAndGate_wires_bound (c : CircuitC) (term : List (String × Bool))
    (sw ng : List (String × String)) (i : Nat) (r : CircuitC × String)
    (h : createTermAndGate c term sw ng i = some r) :
    r.1.wires.length ≤ c.wires.length + 2 := by
  have h' : Option.bind
      ((term.take 2).enum.foldlM
        (wireLiteral sw ng (addComponent c (mkAndGate "" ("AND" ++ toString (i + 1)) 2)).2)
        (addComponent c (mkAndGate "" ("AND" ++ toString (i + 1)) 2)).1)
      (fun c2 => some (c2, (addComponent c (mkAndGate "" ("AND" ++ toString (i + 1)) 2)).2)) =
      some r := h
  cases hf : (term.take 2).enum.foldlM
      (wireLiteral sw ng (addComponent c (mkAndGate "" ("AND" ++ toString (i + 1)) 2)).2)
      (addComponent c (mkAndGate "" ("AND" ++ toString (i + 1)) 2)).1 with
  | none => rw [hf] at h'; simp at h'
  | some c2 =>
    rw [hf] at h'
    have h3 := Option.some.inj h'
    have hb := foldlM_wireLiteral_length _ _ _ _ _ _ hf
    obtain ⟨comp2, hwires, -⟩ :=
      addComponent_cases c (mkAndGate "" ("AND" ++ toString (i + 1)) 2)
    rw [hwires] at hb
    have hlen : (term.take 2).enum.length ≤ 2 := by
      simp [List.enum_length, List.length_take]
    have hr : r.1 = c2 := by rw [← h3]
    rw [hr]
    omega

set_option maxHeartbeats 4000000 in
/-- C6: synthesizing the PDNF `(A&B)` yields exactly the claimed netlist,
simulation with both switches true lights the LED, and only the first two
literals of any term are wired to that term's AND gate. -/
theorem C6_synthesis (maxIterations : Nat) (hmax : 1 ≤ maxIterations) :
    C6Spec maxIterations := by
  have hsome : buildFromPdnf {} "(A&B)" ["A", "B"] = some c6built := by decide
  refine ⟨hsome, by decide, by decide, ?_,
    createTermAndGate_take_two, createTermAndGate_wires_bound⟩
  have hready : c6ready =
      setSwitchState (setSwitchState c6built "comp_0" true) "comp_1" true := by
    unfold c6ready synthABc
    rw [hsome]
    rfl
  have hprop0 : propagateAll c6ready = c6s0 := by rw [hready]; decide
  have hgo1 : (evalGo maxIterations c6s0 0).1 = c6s1 :=
    evalGo_stable_two c6s0 c6s1 (by decide) (by decide) maxIterations hmax
  have hps1 : propagateAll c6s1 = c6s2 := by decide
  have hps2 : propagateAll c6s2 = c6s2 := by decide
  have hgo2 : (evalGo maxIterations c6s2 0).1 = c6s4 :=
    evalGo_stable_one c6s2 c6s4 (by decide) maxIterations hmax
  have hps4 : propagateAll c6s4 = c6s4 := by decide
  rw [stepEngine_circuit, stepEngine_circuit]
  have hcirc : ({ circuit := c6ready } : Engine).circuit = c6ready := rfl
  rw [hcirc, hprop0, hgo1, hps1, hps2, hgo2, hps4]
  decide

/-- Witness for C6 at the concrete bound 3. -/
theorem C6_synthesis_witness : C6Spec 3 := C6_synthesis 3 (by decide)
